import Mathlib

/-!
# Verification of the request/response mapping and validation layer of
# `unifi-network-go`

This file gives a shallow embedding, in Lean 4, of the pure
request-construction, validation, and response-unwrapping logic of the Go
client library `klauern/unifi-network-go`, together with theorems settling
the specification claims about that logic.

Conventions of the embedding:
* Go `int` values are modelled as `Int` (validation code never overflows);
  HTTP status codes are `Nat`.
* Go `string` is `String`; where character-level reasoning is needed
  (`path.Clean`, `strings.Split`) the functions work on `List Char` via
  `String.data`.
* Fallible Go code returning `(T, error)` is modelled as `Except String T`;
  a returned `Except.error` before any call to `Client.do` models the Go
  function returning a validation error without issuing an HTTP request.
* The outgoing HTTP request that an operation hands to `Client.do` is
  reified as a `Req` record (method, url path, query values, whether a body
  is posted, whether a response body is decoded).
-/

namespace UnifiSpec

/-! ## Query values: model of `net/url.Values` as used by the list operations -/

/-- Model of Go `url.Values`: an association list of key/value pairs.
The library only ever calls `Set`, so each key holds a single value. -/
def Values : Type := List (String × String)

instance : DecidableEq Values := by
  unfold Values
  infer_instance

instance : Membership (String × String) Values := by
  unfold Values
  infer_instance

/-- The empty `url.Values`. -/
def Values.empty : Values := ([] : List (String × String))

/-- Model of `url.Values.Set`: replace the value of `k` if present,
otherwise add the pair. -/
def Values.set (q : Values) (k v : String) : Values :=
  let l : List (String × String) := q
  if l.any (fun kv => kv.1 = k) then
    l.map (fun kv => if kv.1 = k then (k, v) else kv)
  else
    l ++ [(k, v)]

/-- Number of keys, model of `len(query)` on `url.Values`. -/
def Values.size (q : Values) : Nat := (q : List (String × String)).length

/-- First value stored under key `k`, if any. -/
def Values.get (q : Values) (k : String) : Option String :=
  ((q : List (String × String)).find? (fun kv => kv.1 = k)).map (fun kv => kv.2)

/-- UTF-8 bytes of a single character (used by the query escaper). -/
def utf8Bytes (n : Nat) : List Nat :=
  if n < 0x80 then [n]
  else if n < 0x800 then [0xC0 + n / 0x40, 0x80 + n % 0x40]
  else if n < 0x10000 then
    [0xE0 + n / 0x1000, 0x80 + n / 0x40 % 0x40, 0x80 + n % 0x40]
  else
    [0xF0 + n / 0x40000, 0x80 + n / 0x1000 % 0x40, 0x80 + n / 0x40 % 0x40,
      0x80 + n % 0x40]

/-- Upper-case hexadecimal digit. -/
def hexDigit (n : Nat) : Char :=
  if n < 10 then Char.ofNat ('0'.toNat + n) else Char.ofNat ('A'.toNat + (n - 10))

/-- Is the character kept unescaped by Go `url.QueryEscape`? -/
def isUnreservedQueryChar (c : Char) : Bool :=
  (('A' ≤ c ∧ c ≤ 'Z') ∨ ('a' ≤ c ∧ c ≤ 'z') ∨ ('0' ≤ c ∧ c ≤ '9')
    ∨ c = '-' ∨ c = '_' ∨ c = '.' ∨ c = '~')

/-- Model of Go `url.QueryEscape`. -/
def queryEscape (s : String) : String :=
  String.mk (s.data.flatMap (fun c =>
    if isUnreservedQueryChar c then [c]
    else if c = ' ' then ['+']
    else (utf8Bytes c.toNat).flatMap (fun b => ['%', hexDigit (b / 16), hexDigit (b % 16)])))

/-- Lexicographic comparison of character lists (Go compares keys
byte-wise; on the ASCII keys the library uses the orders agree). -/
def charListLe : List Char → List Char → Bool
  | [], _ => true
  | _ :: _, [] => false
  | a :: as, b :: bs =>
    if a.toNat < b.toNat then true
    else if b.toNat < a.toNat then false
    else charListLe as bs

/-- Key order used by the `url.Values.Encode` model. -/
def keyLe (a b : String) : Bool := charListLe a.data b.data

/-- Insert a pair into a key-sorted list (helper for the model of
`url.Values.Encode`, which emits keys in sorted order). -/
def insertByKey (kv : String × String) : List (String × String) → List (String × String)
  | [] => [kv]
  | x :: xs => if keyLe kv.1 x.1 then kv :: x :: xs else x :: insertByKey kv xs

/-- Sort pairs by key (insertion sort; the library's queries hold at most
four distinct keys, so any sort agrees with Go's). -/
def sortByKey (l : List (String × String)) : List (String × String) :=
  l.foldr insertByKey []

/-- Model of `url.Values.Encode`: sort pairs by key, escape, join with `&`. -/
def Values.encode (q : Values) : String :=
  let sorted := sortByKey (q : List (String × String))
  String.intercalate "&" (sorted.map (fun kv => queryEscape kv.1 ++ "=" ++ queryEscape kv.2))

/-! ## Outgoing requests -/

/-- The request an operation hands to `Client.do`: HTTP method, the
`urlPath` string argument (path plus encoded query), the query values that
were encoded into it, whether a JSON body is posted (`body != nil`), and
whether a response body is decoded (`result != nil`). -/
structure Req where
  method : String
  urlPath : String
  query : Values
  hasBody : Bool
  expectsResult : Bool
deriving DecidableEq

/-- Shared tail of every list operation: append `"?" ++ query.Encode()` to
the path when at least one parameter was set (`len(query) > 0`). -/
def appendQuery (path : String) (q : Values) : String :=
  if q.size > 0 then path ++ "?" ++ q.encode else path

/-! ## List operations (src/sites.go, src/unnamed/part_001,
src/test_helpers.go clients module, src/hotspot_vouchers.go) -/

/-- Model of `ListSitesParams` (src/sites.go lines 21-24). -/
structure ListSitesParams where
  Offset : Int
  Limit : Int
deriving DecidableEq

/-- Request construction and validation of `Client.ListSites`
(src/sites.go lines 35-55): offset included only when positive; a positive
limit is bounds-checked against 200 and then included. The `Except.error`
branch models returning before `c.do` is called. -/
def listSites (params : Option ListSitesParams) : Except String Req :=
  let urlPath := "/v1/sites"
  match params with
  | none => .ok ⟨"GET", urlPath, Values.empty, false, true⟩
  | some p =>
    let query := Values.empty
    let query := if p.Offset > 0 then query.set "offset" (toString p.Offset) else query
    if p.Limit > 0 then
      if p.Limit > 200 then
        .error "limit must be between 0 and 200"
      else
        let query := query.set "limit" (toString p.Limit)
        .ok ⟨"GET", appendQuery urlPath query, query, false, true⟩
    else
      .ok ⟨"GET", appendQuery urlPath query, query, false, true⟩

/-- Model of `ListDevicesParams` (src/unnamed/part_001 lines 95-99). -/
structure ListDevicesParams where
  Offset : Int
  Limit : Int
  type : String
deriving DecidableEq

/-- Request construction and validation of `Client.ListDevices`
(src/unnamed/part_001 lines 108-139): `limit > 200` and `offset < 0` are
rejected up front (in that order), then the query is assembled. -/
def listDevices (siteID : String) (params : Option ListDevicesParams) : Except String Req :=
  let maxLimit : Int := 200
  match params with
  | some p =>
    if p.Limit > maxLimit then
      .error ("limit must be between 0 and " ++ toString maxLimit)
    else if p.Offset < 0 then
      .error "offset must be non-negative"
    else
      let urlPath := "/api/v1/sites/" ++ siteID ++ "/devices"
      let query := Values.empty
      let query := if p.Offset > 0 then query.set "offset" (toString p.Offset) else query
      let query := if p.Limit > 0 then query.set "limit" (toString p.Limit) else query
      let query := if p.type ≠ "" then query.set "type" p.type else query
      .ok ⟨"GET", appendQuery urlPath query, query, false, true⟩
  | none =>
    .ok ⟨"GET", "/api/v1/sites/" ++ siteID ++ "/devices", Values.empty, false, true⟩

/-- Model of `ListNetworkClientsParams` (src/test_helpers.go clients module
lines 261-266). -/
structure ListNetworkClientsParams where
  Offset : Int
  Limit : Int
  type : String
  WithinHours : Int
deriving DecidableEq

/-- Request construction and validation of `Client.ListNetworkClients`
(src/test_helpers.go clients module lines 275-305): requires a non-empty
site id; a positive limit is bounds-checked against 200; a non-empty type
filter must be one of all/wired/wireless. -/
def listNetworkClients (siteID : String) (params : Option ListNetworkClientsParams) :
    Except String Req :=
  if siteID = "" then .error "siteId is required"
  else
    let urlPath := "/v1/sites/" ++ siteID ++ "/clients"
    match params with
    | none => .ok ⟨"GET", urlPath, Values.empty, false, true⟩
    | some p =>
      let query := Values.empty
      let query := if p.Offset > 0 then query.set "offset" (toString p.Offset) else query
      if p.Limit > 0 ∧ p.Limit > 200 then
        .error "limit must be between 0 and 200"
      else
        let query := if p.Limit > 0 then query.set "limit" (toString p.Limit) else query
        if p.type ≠ "" ∧ p.type ≠ "all" ∧ p.type ≠ "wired" ∧ p.type ≠ "wireless" then
          .error "type must be one of: all, wired, wireless"
        else
          let query := if p.type ≠ "" then query.set "type" p.type else query
          let query :=
            if p.WithinHours > 0 then query.set "within" (toString p.WithinHours) else query
          .ok ⟨"GET", appendQuery urlPath query, query, false, true⟩

/-- Model of `ListHotspotVouchersParams` (src/hotspot_vouchers.go lines 28-31). -/
structure ListHotspotVouchersParams where
  Offset : Int
  Limit : Int
deriving DecidableEq

/-- Request construction of `Client.ListHotspotVouchers`
(src/hotspot_vouchers.go lines 77-94). Note: unlike the other three list
operations, this one performs no bounds check at all — any positive limit
is placed in the query verbatim. -/
def listHotspotVouchers (siteID : String) (params : Option ListHotspotVouchersParams) :
    Except String Req :=
  let urlPath := "/api/v1/sites/" ++ siteID ++ "/hotspot/vouchers"
  match params with
  | none => .ok ⟨"GET", urlPath, Values.empty, false, true⟩
  | some p =>
    let query := Values.empty
    let query := if p.Offset > 0 then query.set "offset" (toString p.Offset) else query
    let query := if p.Limit > 0 then query.set "limit" (toString p.Limit) else query
    .ok ⟨"GET", appendQuery urlPath query, query, false, true⟩

/-! ## Voucher generation (src/hotspot_vouchers.go lines 144-181) -/

/-- Model of `GenerateHotspotVouchersRequest` (src/hotspot_vouchers.go lines 56-64). -/
structure GenerateHotspotVouchersRequest where
  Count : Int
  Name : String
  AuthorizeGuestLimit : Int
  TimeLimitMinutes : Int
  DataUsageLimitMB : Int
  RxRateLimitKbps : Int
  TxRateLimitKbps : Int
deriving DecidableEq

/-- Request construction and validation of `Client.GenerateHotspotVouchers`
(src/hotspot_vouchers.go lines 144-175): nil check, then the fixed sequence
of field validations in source order; only when all pass is the POST request
built. An `Except.error` models returning before `c.do` is called. -/
def generateHotspotVouchers (siteID : String)
    (request : Option GenerateHotspotVouchersRequest) : Except String Req :=
  match request with
  | none => .error "request cannot be nil"
  | some r =>
    if r.Name = "" then
      .error "name is required"
    else if r.Count < 1 ∨ r.Count > 10000 then
      .error "count must be between 1 and 10000"
    else if r.TimeLimitMinutes < 1 ∨ r.TimeLimitMinutes > 1000000 then
      .error "timeLimitMinutes must be between 1 and 1000000"
    else if r.AuthorizeGuestLimit < 0 then
      .error "authorizedGuestLimit must be greater than 0"
    else if r.DataUsageLimitMB ≠ 0 ∧ (r.DataUsageLimitMB < 1 ∨ r.DataUsageLimitMB > 1046576) then
      .error "dataUsageLimitMBytes must be between 1 and 1046576"
    else if r.RxRateLimitKbps ≠ 0 ∧ (r.RxRateLimitKbps < 2 ∨ r.RxRateLimitKbps > 100000) then
      .error "rxRateLimitKbps must be between 2 and 100000"
    else if r.TxRateLimitKbps ≠ 0 ∧ (r.TxRateLimitKbps < 2 ∨ r.TxRateLimitKbps > 100000) then
      .error "txRateLimitKbps must be between 2 and 100000"
    else
      .ok ⟨"POST", "/api/v1/sites/" ++ siteID ++ "/hotspot/vouchers/create",
        Values.empty, true, true⟩

/-! ## Entity records decoded from responses -/

/-- Opaque carrier for a Go `float64` field: the IEEE-754 bit pattern.
No claim computes with floating point, so the bits stay uninterpreted. -/
structure GoFloat where
  bits : Nat
deriving DecidableEq

/-- Model of `Site` (src/sites.go lines 11-18). -/
structure Site where
  ID : String
  Name : String
  Description : String
  Role : String
  Hidden : Bool
  NoDelete : Bool
deriving DecidableEq

/-- Model of `Device` (src/unnamed/part_001 lines 12-30). `type` carries the Go
field `Type` (JSON tag `-`), derived from `Features` on decode. -/
structure Device where
  ID : String
  MAC : String
  Model : String
  type : String
  Features : List String
  Name : String
  SiteID : String
  IP : String
  Version : String
  Adopted : Bool
  Disabled : Bool
  Uptime : Int
  LastSeen : Int
  Upgradable : Bool
  State : String
  LastUplink : String
  UplinkMAC : String
deriving DecidableEq

/-- Model of `NetworkClient` (src/test_helpers.go clients module lines 222-258). -/
structure NetworkClient where
  ID : String
  Name : String
  ConnectedAt : String
  IPAddress : String
  type : String
  MACAddress : String
  UplinkDeviceID : String
  SiteID : String
  Network : String
  NetworkName : String
  OUI : String
  LastSeen : Int
  Uptime : Int
  IsWired : Bool
  IsGuest : Bool
  DeviceID : String
  DeviceName : String
  DeviceMAC : String
  RxBytes : Int
  TxBytes : Int
  RxRate : GoFloat
  TxRate : GoFloat
  SignalStrength : Int
  NoiseFloor : Int
  SNR : Int
  Channel : Int
  RadioProtocol : String
  RadioBand : String
  SSID : String
  BSSID : String
  UseFixedIP : Bool
  FixedIP : String
  NetworkID : String
  Blocked : Bool
  Authorized : Bool
deriving DecidableEq

/-- Model of `HotspotVoucher` (src/hotspot_vouchers.go lines 11-25). -/
structure HotspotVoucher where
  ID : String
  CreatedAt : String
  Name : String
  Code : String
  AuthorizeGuestLimit : Int
  AuthorizeGuestCount : Int
  ActivatedAt : String
  ExpiresAt : String
  Expired : Bool
  TimeLimitMinutes : Int
  DataUsageLimitMB : Int
  RxRateLimitKbps : Int
  TxRateLimitKbps : Int
deriving DecidableEq

/-- Nested `system-stats` record of `DeviceStatistics`
(src/unnamed/part_001 lines 87-90). -/
structure SystemStats where
  Temperature : GoFloat
  FanLevel : Int
deriving DecidableEq

/-- Model of `DeviceStatistics` (src/unnamed/part_001 lines 65-92). -/
structure DeviceStatistics where
  ID : String
  MAC : String
  RxBytes : Int
  TxBytes : Int
  RxRate : GoFloat
  TxRate : GoFloat
  RxPackets : Int
  TxPackets : Int
  RxErrors : Int
  TxErrors : Int
  RxDropped : Int
  TxDropped : Int
  RxMulticast : Int
  TxMulticast : Int
  RxBroadcast : Int
  TxBroadcast : Int
  BytesR : Int
  RxBytesR : Int
  TxBytesR : Int
  CPU : GoFloat
  Memory : GoFloat
  Stats : SystemStats
  Uptime : Int
deriving DecidableEq

/-! ## By-id get operations: unwrapping the `data` array of a 200 response

Each function below models the code a by-id get operation runs after
`Client.do` returned successfully: inspect the decoded `data` slice,
convert an empty slice into a not-found error naming the requested id,
otherwise return a pointer to the first element. -/

/-- Model of `Client.GetSite` response handling (src/sites.go lines 78-82). -/
def getSiteData (siteID : String) (data : List Site) : Except String Site :=
  match data with
  | [] => .error ("site not found: " ++ siteID)
  | x :: _ => .ok x

/-- Model of `Client.GetDevice` response handling (src/unnamed/part_001
lines 158-162). -/
def getDeviceData (deviceID : String) (data : List Device) : Except String Device :=
  match data with
  | [] => .error ("device not found: " ++ deviceID)
  | x :: _ => .ok x

/-- Model of `Client.GetNetworkClient` response handling (src/test_helpers.go
clients module lines 334-338). -/
def getNetworkClientData (clientID : String) (data : List NetworkClient) :
    Except String NetworkClient :=
  match data with
  | [] => .error ("network client not found: " ++ clientID)
  | x :: _ => .ok x

/-- Model of `Client.GetHotspotVoucher` response handling (src/hotspot_vouchers.go
lines 126-130). -/
def getHotspotVoucherData (voucherID : String) (data : List HotspotVoucher) :
    Except String HotspotVoucher :=
  match data with
  | [] => .error ("voucher not found: " ++ voucherID)
  | x :: _ => .ok x

/-- Model of `Client.GetVoucherDetails` response handling (src/hotspot_vouchers.go
lines 200-204). -/
def getVoucherDetailsData (voucherID : String) (data : List HotspotVoucher) :
    Except String HotspotVoucher :=
  match data with
  | [] => .error ("voucher not found: " ++ voucherID)
  | x :: _ => .ok x

/-- Model of `Client.GetDeviceStatistics` response handling (src/unnamed/part_001
lines 207-211). -/
def getDeviceStatisticsData (deviceID : String) (data : List DeviceStatistics) :
    Except String DeviceStatistics :=
  match data with
  | [] => .error ("no statistics found for device: " ++ deviceID)
  | x :: _ => .ok x

/-! ## Action operations -/

/-- Model of `DeviceAction` (src/unnamed/part_001 lines 60-62). -/
structure DeviceAction where
  Action : String
deriving DecidableEq

/-- Model of `DevicePortAction` (src/unnamed/part_001 lines 53-57). -/
structure DevicePortAction where
  PortIDX : Int
  PortID : String
  Action : String
deriving DecidableEq

/-- Request construction of `Client.ExecuteDeviceAction`
(src/unnamed/part_001 lines 181-188): nil action rejected, then a POST
with the action as body and a nil result target. -/
def executeDeviceAction (siteID deviceID : String) (action : Option DeviceAction) :
    Except String Req :=
  match action with
  | none => .error "action cannot be nil"
  | some _ =>
    .ok ⟨"POST", "/api/v1/sites/" ++ siteID ++ "/devices/" ++ deviceID,
      Values.empty, true, false⟩

/-- Request construction of `Client.ExecutePortAction`
(src/unnamed/part_001 lines 166-172): nil action rejected, then a POST
with the action as body and a nil result target. -/
def executePortAction (siteID deviceID : String) (action : Option DevicePortAction) :
    Except String Req :=
  match action with
  | none => .error "action cannot be nil"
  | some a =>
    .ok ⟨"POST", "/api/v1/sites/" ++ siteID ++ "/devices/" ++ deviceID ++ "/port/" ++ a.PortID,
      Values.empty, true, false⟩

/-- Request construction of `Client.BlockNetworkClient`
(src/test_helpers.go clients module lines 342-350): both ids must be
non-empty, then a POST with nil body and nil result target. -/
def blockNetworkClient (siteID clientID : String) : Except String Req :=
  if siteID = "" then .error "siteId is required"
  else if clientID = "" then .error "clientId is required"
  else
    .ok ⟨"POST", "/v1/sites/" ++ siteID ++ "/clients/" ++ clientID ++ "/block",
      Values.empty, false, false⟩

/-- Request construction of `Client.UnblockNetworkClient`
(src/test_helpers.go clients module lines 359-367). -/
def unblockNetworkClient (siteID clientID : String) : Except String Req :=
  if siteID = "" then .error "siteId is required"
  else if clientID = "" then .error "clientId is required"
  else
    .ok ⟨"POST", "/v1/sites/" ++ siteID ++ "/clients/" ++ clientID ++ "/unblock",
      Values.empty, false, false⟩

/-! ## JSON values and a parser modelling `encoding/json`

The transport adapter decodes error bodies with `json.Unmarshal`. We model
JSON documents as a small AST and give an executable parser for the
fragment the library exchanges: literals, integers (non-integer numbers
are kept as uninterpreted `jfrac` tokens — they only ever flow into
ignored keys or produce a type error, exactly as in Go), strings with the
single-character escapes and `\u` hex escapes, arrays and objects. -/

/-- JSON document model. -/
inductive Json where
  | null : Json
  | jbool : Bool → Json
  | jnum : Int → Json
  | jfrac : String → Json
  | jstr : String → Json
  | jarr : List Json → Json
  | jobj : List (String × Json) → Json

/-- JSON whitespace. -/
def isJsonWs (c : Char) : Bool :=
  c = ' ' ∨ c = '\t' ∨ c = '\n' ∨ c = '\r'

/-- Skip leading JSON whitespace. -/
def skipWs : List Char → List Char
  | [] => []
  | c :: rest => if isJsonWs c then skipWs rest else c :: rest

/-- Hex digit value. -/
def hexVal (c : Char) : Option Nat :=
  if '0' ≤ c ∧ c ≤ '9' then some (c.toNat - '0'.toNat)
  else if 'a' ≤ c ∧ c ≤ 'f' then some (c.toNat - 'a'.toNat + 10)
  else if 'A' ≤ c ∧ c ≤ 'F' then some (c.toNat - 'A'.toNat + 10)
  else none

/-- Parse the remainder of a JSON string literal (the opening quote is
already consumed), returning the decoded characters and the input after
the closing quote. The fuel only needs to cover the input length; every
step consumes at least one character. -/
def parseStringRest : Nat → List Char → Except String (List Char × List Char)
  | 0, _ => .error "string literal too long"
  | _ + 1, [] => .error "unexpected end of string literal"
  | _ + 1, '"' :: rest => .ok ([], rest)
  | fuel + 1, '\\' :: esc =>
    match esc with
    | 'u' :: h1 :: h2 :: h3 :: h4 :: rest =>
      match hexVal h1, hexVal h2, hexVal h3, hexVal h4 with
      | some a, some b, some c, some d =>
        match parseStringRest fuel rest with
        | .ok (s, rem) => .ok (Char.ofNat (((a * 16 + b) * 16 + c) * 16 + d) :: s, rem)
        | .error e => .error e
      | _, _, _, _ => .error "invalid hex escape"
    | c :: rest =>
      let decoded : Option Char :=
        if c = '"' then some '"'
        else if c = '\\' then some '\\'
        else if c = '/' then some '/'
        else if c = 'b' then some (Char.ofNat 8)
        else if c = 'f' then some (Char.ofNat 12)
        else if c = 'n' then some '\n'
        else if c = 'r' then some '\r'
        else if c = 't' then some '\t'
        else none
      match decoded with
      | some d =>
        match parseStringRest fuel rest with
        | .ok (s, rem) => .ok (d :: s, rem)
        | .error e => .error e
      | none => .error "invalid escape"
    | [] => .error "unexpected end of escape"
  | fuel + 1, c :: rest =>
    match parseStringRest fuel rest with
    | .ok (s, rem) => .ok (c :: s, rem)
    | .error e => .error e

/-- Take the leading run of decimal digits. -/
def takeDigits : List Char → List Char × List Char
  | [] => ([], [])
  | c :: rest =>
    if '0' ≤ c ∧ c ≤ '9' then
      let (d, r) := takeDigits rest
      (c :: d, r)
    else ([], c :: rest)

/-- Digits to a natural number. -/
def digitsToNat (l : List Char) : Nat :=
  l.foldl (fun acc c => acc * 10 + (c.toNat - '0'.toNat)) 0

/-- Is this character part of a JSON number tail (fraction/exponent)? -/
def isNumTailChar (c : Char) : Bool :=
  ('0' ≤ c ∧ c ≤ '9') ∨ c = '.' ∨ c = 'e' ∨ c = 'E' ∨ c = '+' ∨ c = '-'

/-- Take the leading run of number-tail characters. -/
def takeNumTail : List Char → List Char × List Char
  | [] => ([], [])
  | c :: rest =>
    if isNumTailChar c then
      let (d, r) := takeNumTail rest
      (c :: d, r)
    else ([], c :: rest)

/-- Parse a JSON number starting at `l` (first character is a digit or
`-`). Integer-valued numbers become `jnum`; numbers with a fraction or
exponent are kept uninterpreted as `jfrac`. -/
def parseNumber (l : List Char) : Except String (Json × List Char) :=
  let (neg, l') := match l with
    | '-' :: rest => (true, rest)
    | _ => (false, l)
  let (digits, rest) := takeDigits l'
  if digits = [] then .error "invalid number"
  else
    match rest with
    | c :: _ =>
      if c = '.' ∨ c = 'e' ∨ c = 'E' then
        let (tail, rest') := takeNumTail rest
        .ok (.jfrac (String.mk ((if neg then ['-'] else []) ++ digits ++ tail)), rest')
      else
        .ok (.jnum (if neg then -(digitsToNat digits : Int) else (digitsToNat digits : Int)), rest)
    | [] =>
      .ok (.jnum (if neg then -(digitsToNat digits : Int) else (digitsToNat digits : Int)), [])

mutual

/-- Parse one JSON value; `fuel` bounds the nesting depth. -/
def parseValue : Nat → List Char → Except String (Json × List Char)
  | 0, _ => .error "value nesting too deep"
  | fuel + 1, l =>
    match skipWs l with
    | [] => .error "unexpected end of input"
    | c :: rest =>
      if c = 'n' then
        match rest with
        | 'u' :: 'l' :: 'l' :: r => .ok (.null, r)
        | _ => .error "invalid literal"
      else if c = 't' then
        match rest with
        | 'r' :: 'u' :: 'e' :: r => .ok (.jbool true, r)
        | _ => .error "invalid literal"
      else if c = 'f' then
        match rest with
        | 'a' :: 'l' :: 's' :: 'e' :: r => .ok (.jbool false, r)
        | _ => .error "invalid literal"
      else if c = '"' then
        match parseStringRest (rest.length + 1) rest with
        | .ok (s, rem) => .ok (.jstr (String.mk s), rem)
        | .error e => .error e
      else if c = '-' ∨ ('0' ≤ c ∧ c ≤ '9') then
        parseNumber (c :: rest)
      else if c = '[' then
        parseElems fuel (skipWs rest) true
      else if c = '{' then
        parseMembers fuel (skipWs rest) true
      else .error "invalid character"

/-- Parse array elements after `[`; `first` marks that no element has been
consumed yet (so `]` may follow immediately). -/
def parseElems : Nat → List Char → Bool → Except String (Json × List Char)
  | 0, _, _ => .error "value nesting too deep"
  | fuel + 1, l, first =>
    match l with
    | ']' :: rest => if first then .ok (.jarr [], rest) else .error "unexpected ]"
    | _ =>
      match parseValue fuel l with
      | .error e => .error e
      | .ok (v, rem) =>
        match skipWs rem with
        | ',' :: rest =>
          match parseElems fuel (skipWs rest) false with
          | .ok (.jarr vs, rem') => .ok (.jarr (v :: vs), rem')
          | .ok _ => .error "impossible"
          | .error e => .error e
        | ']' :: rest => .ok (.jarr [v], rest)
        | _ => .error "expected , or ]"

/-- Parse object members after `{`. -/
def parseMembers : Nat → List Char → Bool → Except String (Json × List Char)
  | 0, _, _ => .error "value nesting too deep"
  | fuel + 1, l, first =>
    match l with
    | '}' :: rest => if first then .ok (.jobj [], rest) else .error "unexpected \x7d"
    | '"' :: rest =>
      match parseStringRest (rest.length + 1) rest with
      | .error e => .error e
      | .ok (k, rem) =>
        match skipWs rem with
        | ':' :: rest' =>
          match parseValue fuel rest' with
          | .error e => .error e
          | .ok (v, rem') =>
            match skipWs rem' with
            | ',' :: rest'' =>
              match parseMembers fuel (skipWs rest'') false with
              | .ok (.jobj kvs, rem'') => .ok (.jobj ((String.mk k, v) :: kvs), rem'')
              | .ok _ => .error "impossible"
              | .error e => .error e
            | '}' :: rest'' => .ok (.jobj [(String.mk k, v)], rest'')
            | _ => .error "expected , or \x7d"
        | _ => .error "expected :"
    | _ => .error "expected key or \x7d"

end

/-- Parse a complete JSON document from a string, requiring only
whitespace after the top-level value (as `json.Unmarshal` does). -/
def parseJsonStr (s : String) : Except String Json :=
  match parseValue (s.length + 1) s.data with
  | .error e => .error e
  | .ok (v, rem) =>
    match skipWs rem with
    | [] => .ok v
    | _ => .error "unexpected trailing data"

/-! ## The Error model and `Client.do` (src/client.go) -/

/-- Model of `Error` (src/client.go lines 18-25): `Status` is filled from the JSON
key `statusCode`, the rest from the other tagged keys. -/
structure GoError where
  Status : Int
  StatusName : String
  Message : String
  Timestamp : String
  RequestPath : String
  RequestID : String
deriving DecidableEq

/-- The zero `Error` value, as Go declares `var apiErr Error`. -/
def GoError.zero : GoError := ⟨0, "", "", "", "", ""⟩

/-- ASCII lower-casing of one character, as `encoding/json` folds struct
tag names when matching object keys. -/
def asciiLower (c : Char) : Char :=
  if 'A' ≤ c ∧ c ≤ 'Z' then Char.ofNat (c.toNat + 32) else c

/-- ASCII case-folding of a key. `json.Unmarshal` matches an object key
to a struct field by its tag, preferring an exact match but also
accepting an ASCII case-insensitive one; every struct decoded here has
tags that stay pairwise distinct after folding, so matching on the
folded key is equivalent to Go's rule. -/
def foldKey (s : String) : String := String.mk (s.data.map asciiLower)

/-- One field assignment of `json.Unmarshal` into `Error`: a key matching
a tag (case-insensitively, per `foldKey`) with the right value type is
stored, a JSON `null` or an unknown key is ignored, a type mismatch is an
unmarshal error. -/
def applyErrorField (e : GoError) (kv : String × Json) : Except String GoError :=
  match foldKey kv.1, kv.2 with
  | "statuscode", .jnum n => .ok { e with Status := n }
  | "statuscode", .null => .ok e
  | "statuscode", _ => .error "cannot unmarshal value into field Status of type int"
  | "statusname", .jstr s => .ok { e with StatusName := s }
  | "statusname", .null => .ok e
  | "statusname", _ => .error "cannot unmarshal value into field StatusName of type string"
  | "message", .jstr s => .ok { e with Message := s }
  | "message", .null => .ok e
  | "message", _ => .error "cannot unmarshal value into field Message of type string"
  | "timestamp", .jstr s => .ok { e with Timestamp := s }
  | "timestamp", .null => .ok e
  | "timestamp", _ => .error "cannot unmarshal value into field Timestamp of type string"
  | "requestpath", .jstr s => .ok { e with RequestPath := s }
  | "requestpath", .null => .ok e
  | "requestpath", _ => .error "cannot unmarshal value into field RequestPath of type string"
  | "requestid", .jstr s => .ok { e with RequestID := s }
  | "requestid", .null => .ok e
  | "requestid", _ => .error "cannot unmarshal value into field RequestID of type string"
  | _, _ => .ok e

/-- Model of `json.Unmarshal` of a JSON document into the `Error` struct: objects
assign their members in order, `null` leaves the zero value, anything else
is a type error. -/
def unmarshalGoError (j : Json) : Except String GoError :=
  match j with
  | .null => .ok GoError.zero
  | .jobj fields => fields.foldlM applyErrorField GoError.zero
  | _ => .error "cannot unmarshal value into Go value of type unifi.Error"

/-- Model of `json.Unmarshal(respBody, &apiErr)`: parse the body text, then fill
the `Error` struct. -/
def decodeGoError (body : String) : Except String GoError :=
  match parseJsonStr body with
  | .ok j => unmarshalGoError j
  | .error e => .error e

/-- Result of one `Client.do` round trip. -/
inductive DoResult where
  | success : String → DoResult
  | apiError : GoError → DoResult
  | rawError : String → DoResult
deriving DecidableEq

/-- The `resp.StatusCode >= 400` branch of `Client.do` (src/client.go
lines 207-214): decode the body into the Error model and return it; if the
decode fails, fall back to an error embedding the status code and the raw
body text. -/
def doErrorBranch (status : Nat) (body : String) : DoResult :=
  match decodeGoError body with
  | .ok e => .apiError e
  | .error _ => .rawError ("API error (status " ++ toString status ++ "): " ++ body)

/-- A received HTTP response: status code and raw body text. -/
structure HttpResponse where
  status : Nat
  body : String
deriving DecidableEq

/-- Status classification of `Client.do` (src/client.go lines 207-222):
statuses at least 400 take the error branch, everything else is a success
whose body is decoded into the caller's result target (left to the per-
operation handlers). -/
def doRun (resp : HttpResponse) : DoResult :=
  if resp.status ≥ 400 then doErrorBranch resp.status resp.body
  else .success resp.body

/-! ## Go `path.Clean`, `path.Join`, `strings.TrimPrefix`
(used by `NewClient` and `Client.do`, src/client.go lines 74-78 and
148-158). The functions work on `List Char`; `String` wrappers follow. -/

/-- Model of `strings.TrimPrefix`: drop `pre` when it is a prefix. -/
def trimPrefL (l pre : List Char) : List Char :=
  if pre.isPrefixOf l then l.drop pre.length else l

/-- Raw `/`-separated segments of a path (empty segments included). -/
def rawSegsL (l : List Char) : List (List Char) := l.splitOn '/'

/-- The stack pass of Go `path.Clean`: skip empty and `.` segments, make
`..` pop the previous segment (or be dropped at the root of a rooted
path), push everything else. The accumulator holds the output segments
in reverse. -/
def cleanSegsAux (rooted : Bool) : List (List Char) → List (List Char) → List (List Char)
  | acc, [] => acc.reverse
  | acc, seg :: rest =>
    if seg = [] ∨ seg = ['.'] then cleanSegsAux rooted acc rest
    else if seg = ['.', '.'] then
      match acc with
      | [] =>
        if rooted then cleanSegsAux rooted [] rest
        else cleanSegsAux rooted [['.', '.']] rest
      | top :: acc' =>
        if top = ['.', '.'] then cleanSegsAux rooted (seg :: acc) rest
        else cleanSegsAux rooted acc' rest
    else cleanSegsAux rooted (seg :: acc) rest

/-- Model of Go `path.Clean` on character lists. -/
def cleanL (l : List Char) : List Char :=
  if l = [] then ['.']
  else
    let rooted := l.head? = some '/'
    let stack := cleanSegsAux rooted [] (rawSegsL l)
    let out := List.intercalate ['/'] stack
    if rooted then '/' :: out
    else if out = [] then ['.']
    else out

/-- Model of Go `path.Join` on two elements: empty elements are ignored,
the rest are joined with `/` and cleaned; all-empty input gives `""`. -/
def joinL (a b : List Char) : List Char :=
  if a = [] ∧ b = [] then []
  else if a = [] then cleanL b
  else if b = [] then cleanL a
  else cleanL (a ++ '/' :: b)

/-- Go `path.Clean` on strings. -/
def goPathClean (s : String) : String := String.mk (cleanL s.data)

/-- Go `path.Join` on two strings. -/
def goPathJoin (a b : String) : String := String.mk (joinL a.data b.data)

/-- The fixed API prefix `/proxy/network/integration` (src/client.go
line 76). -/
def pfxChars : List Char := "/proxy/network/integration".data

/-- The same prefix without the leading slash (src/client.go line 77). -/
def pfxRelChars : List Char := "proxy/network/integration".data

/-- The two `strings.TrimPrefix` calls of `NewClient` (src/client.go
lines 76-77): drop one leading occurrence of the prefix, with or without
its leading slash. -/
def trim2L (l : List Char) : List Char :=
  trimPrefL (trimPrefL l pfxChars) pfxRelChars

/-- Base-path normalization of `NewClient` (src/client.go lines 74-78):
trim one leading occurrence of the prefix (with or without leading
slash), then join the result back onto the prefix. -/
def normalizeBasePath (p : String) : String :=
  String.mk (joinL pfxChars (trim2L p.data))

/-- The prefix as a segment sequence. -/
def pfxSegs : List (List Char) := ["proxy".data, "network".data, "integration".data]

/-- Number of (possibly overlapping) occurrences of the segment sequence
`pat` in a segment list. -/
def seqCount (pat : List (List Char)) : List (List Char) → Nat
  | [] => if pat.isPrefixOf ([] : List (List Char)) then 1 else 0
  | s :: rest => (if pat.isPrefixOf (s :: rest) then 1 else 0) + seqCount pat rest

/-- Non-empty segments of a path string's characters. -/
def segsOf (l : List Char) : List (List Char) := (rawSegsL l).filter (fun seg => seg ≠ [])

/-- How many times the segment sequence `proxy/network/integration` occurs
in a path string. -/
def pfxSeqCount (s : String) : Nat := seqCount pfxSegs (segsOf s.data)

/-! ## The client record and `Client.do` URL construction
(src/client.go lines 28-34 and 148-223) -/

/-- The components of `url.URL` the library touches. -/
structure URLModel where
  scheme : String
  host : String
  path : String
  rawQuery : String
deriving DecidableEq

/-- Model of `Client` (src/client.go lines 28-34). The HTTP client and logger are
opaque handles: the embedding only tracks their identity. -/
structure Client where
  baseURL : URLModel
  httpClientId : Nat
  apiKey : String
  insecure : Bool
  loggerId : Nat
deriving DecidableEq

/-- Model of `Client.do` (src/client.go lines 148-223) with the client state
threaded explicitly: the base URL is copied into a local `u`, the path and
query of the copy are updated, the request is executed against `resp`, and
the response is classified. Every mutation in the source targets the local
copy, which the returned triple exhibits. -/
def doClient (c : Client) (urlPath : String) (resp : HttpResponse) :
    Client × URLModel × DoResult :=
  let u := c.baseURL
  let parts := urlPath.splitOn "?"
  let u := { u with path := goPathJoin u.path (parts.headD "") }
  let u := if parts.length > 1 then { u with rawQuery := parts.getD 1 "" } else u
  (c, u, doRun resp)

/-- An exposed operation as run against a response: validation-or-request
construction followed by `Client.do`, threading the client. -/
def runOp (c : Client) (build : Except String Req) (resp : HttpResponse) :
    Client × Except String DoResult :=
  match build with
  | .error e => (c, .error e)
  | .ok req =>
    let (c', _, r) := doClient c req.urlPath resp
    (c', .ok r)

/-! ## Device JSON decoding (src/unnamed/part_001 lines 33-50) -/

/-- JSON array elements into `[]string`: strings are kept, `null` becomes
the zero string, anything else is a type error. -/
def elemsToStrings : List Json → Except String (List String)
  | [] => .ok []
  | .jstr s :: rest =>
    match elemsToStrings rest with
    | .ok l => .ok (s :: l)
    | .error e => .error e
  | .null :: rest =>
    match elemsToStrings rest with
    | .ok l => .ok ("" :: l)
    | .error e => .error e
  | _ :: _ => .error "cannot unmarshal value into Go value of type string"

/-- One field assignment of `json.Unmarshal` into `Device`, following the
struct tags of src/unnamed/part_001 lines 12-30 (keys matched
case-insensitively via `foldKey`, as Go does; the folded tags are
pairwise distinct). The `Type` field has tag `-` and is never assigned
from JSON; unknown keys are ignored. -/
def applyDeviceField (d : Device) (kv : String × Json) : Except String Device :=
  match foldKey kv.1, kv.2 with
  | "id", .jstr s => .ok { d with ID := s }
  | "id", .null => .ok d
  | "id", _ => .error "cannot unmarshal value into field ID of type string"
  | "macaddress", .jstr s => .ok { d with MAC := s }
  | "macaddress", .null => .ok d
  | "macaddress", _ => .error "cannot unmarshal value into field MAC of type string"
  | "model", .jstr s => .ok { d with Model := s }
  | "model", .null => .ok d
  | "model", _ => .error "cannot unmarshal value into field Model of type string"
  | "features", .jarr xs =>
    match elemsToStrings xs with
    | .ok l => .ok { d with Features := l }
    | .error e => .error e
  | "features", .null => .ok { d with Features := [] }
  | "features", _ => .error "cannot unmarshal value into field Features of type []string"
  | "name", .jstr s => .ok { d with Name := s }
  | "name", .null => .ok d
  | "name", _ => .error "cannot unmarshal value into field Name of type string"
  | "siteid", .jstr s => .ok { d with SiteID := s }
  | "siteid", .null => .ok d
  | "siteid", _ => .error "cannot unmarshal value into field SiteID of type string"
  | "ipaddress", .jstr s => .ok { d with IP := s }
  | "ipaddress", .null => .ok d
  | "ipaddress", _ => .error "cannot unmarshal value into field IP of type string"
  | "version", .jstr s => .ok { d with Version := s }
  | "version", .null => .ok d
  | "version", _ => .error "cannot unmarshal value into field Version of type string"
  | "adopted", .jbool b => .ok { d with Adopted := b }
  | "adopted", .null => .ok d
  | "adopted", _ => .error "cannot unmarshal value into field Adopted of type bool"
  | "disabled", .jbool b => .ok { d with Disabled := b }
  | "disabled", .null => .ok d
  | "disabled", _ => .error "cannot unmarshal value into field Disabled of type bool"
  | "uptime", .jnum n => .ok { d with Uptime := n }
  | "uptime", .null => .ok d
  | "uptime", _ => .error "cannot unmarshal value into field Uptime of type int64"
  | "lastseen", .jnum n => .ok { d with LastSeen := n }
  | "lastseen", .null => .ok d
  | "lastseen", _ => .error "cannot unmarshal value into field LastSeen of type int64"
  | "upgradable", .jbool b => .ok { d with Upgradable := b }
  | "upgradable", .null => .ok d
  | "upgradable", _ => .error "cannot unmarshal value into field Upgradable of type bool"
  | "state", .jstr s => .ok { d with State := s }
  | "state", .null => .ok d
  | "state", _ => .error "cannot unmarshal value into field State of type string"
  | "lastuplink", .jstr s => .ok { d with LastUplink := s }
  | "lastuplink", .null => .ok d
  | "lastuplink", _ => .error "cannot unmarshal value into field LastUplink of type string"
  | "uplinkmac", .jstr s => .ok { d with UplinkMAC := s }
  | "uplinkmac", .null => .ok d
  | "uplinkmac", _ => .error "cannot unmarshal value into field UplinkMAC of type string"
  | _, _ => .ok d

/-- The `json.Unmarshal(data, &aux)` step of `Device.UnmarshalJSON`,
decoding into the device through the `Alias` wrapper (no custom
unmarshaler fires): objects assign their members in order onto the
receiver `d0`, `null` is a no-op, anything else is a type error. -/
def unmarshalDeviceFields (d0 : Device) (j : Json) : Except String Device :=
  match j with
  | .null => .ok d0
  | .jobj fields => fields.foldlM applyDeviceField d0
  | _ => .error "cannot unmarshal value into Go value of type unifi.Device"

/-- Model of `Device.UnmarshalJSON` (src/unnamed/part_001 lines 33-50): decode the
fields, then derive `Type` from the first feature when the feature list is
non-empty. -/
def unmarshalDevice (d0 : Device) (j : Json) : Except String Device :=
  match unmarshalDeviceFields d0 j with
  | .error e => .error e
  | .ok d =>
    match d.Features with
    | [] => .ok d
    | f :: _ => .ok { d with type := f }

/-! ## Remaining request builders -/

/-- Request construction of `Client.GetSite` (src/sites.go lines 64-73). -/
def getSiteBuild (siteID : String) : Except String Req :=
  if siteID = "" then .error "siteID cannot be empty"
  else .ok ⟨"GET", "/v1/sites/" ++ siteID, Values.empty, false, true⟩

/-- Request construction of `Client.GetDevice` (src/unnamed/part_001
lines 148-153). -/
def getDeviceBuild (siteID deviceID : String) : Except String Req :=
  .ok ⟨"GET", "/api/v1/sites/" ++ siteID ++ "/devices/" ++ deviceID, Values.empty, false, true⟩

/-- Request construction of `Client.GetNetworkClient` (src/test_helpers.go
clients module lines 317-329). -/
def getNetworkClientBuild (siteID clientID : String) : Except String Req :=
  if siteID = "" then .error "siteId is required"
  else if clientID = "" then .error "clientId is required"
  else .ok ⟨"GET", "/v1/sites/" ++ siteID ++ "/clients/" ++ clientID, Values.empty, false, true⟩

/-- Request construction of `Client.GetHotspotVoucher`
(src/hotspot_vouchers.go lines 116-121). -/
def getHotspotVoucherBuild (siteID voucherID : String) : Except String Req :=
  .ok ⟨"GET", "/api/v1/sites/" ++ siteID ++ "/hotspot/vouchers/" ++ voucherID,
    Values.empty, false, true⟩

/-- Request construction of `Client.GetVoucherDetails`
(src/hotspot_vouchers.go lines 184-195). -/
def getVoucherDetailsBuild (siteID voucherID : String) : Except String Req :=
  if siteID = "" then .error "siteId is required"
  else if voucherID = "" then .error "voucherId is required"
  else .ok ⟨"GET", "/api/v1/sites/" ++ siteID ++ "/hotspot/vouchers/" ++ voucherID,
    Values.empty, false, true⟩

/-- Request construction of `Client.GetDeviceStatistics`
(src/unnamed/part_001 lines 196-202). -/
def getDeviceStatisticsBuild (siteID deviceID : String) : Except String Req :=
  .ok ⟨"GET", "/api/v1/sites/" ++ siteID ++ "/devices/" ++ deviceID ++ "/stats",
    Values.empty, false, true⟩

/-- Model of `CreateHotspotVoucherRequest` (src/hotspot_vouchers.go lines 40-48). -/
structure CreateHotspotVoucherRequest where
  Name : String
  TimeLimitMinutes : Int
  AuthorizeGuestLimit : Int
  DataUsageLimitMB : Int
  RxRateLimitKbps : Int
  TxRateLimitKbps : Int
  Count : Int
deriving DecidableEq

/-- Request construction of `Client.CreateHotspotVoucher`
(src/hotspot_vouchers.go lines 103-107): no validation at all. A body is
always marshalled — the request pointer goes into `Client.do`'s
`interface{}` parameter, so even a nil pointer fails the `body != nil`
test and is posted as JSON `null`. -/
def createHotspotVoucherBuild (siteID : String) (request : Option CreateHotspotVoucherRequest) :
    Except String Req :=
  .ok ⟨"POST", "/api/v1/sites/" ++ siteID ++ "/hotspot/vouchers",
    Values.empty, true, true⟩

/-- Request construction of `Client.DeleteHotspotVoucher`
(src/hotspot_vouchers.go lines 134-135). -/
def deleteHotspotVoucherBuild (siteID voucherID : String) : Except String Req :=
  .ok ⟨"DELETE", "/api/v1/sites/" ++ siteID ++ "/hotspot/vouchers/" ++ voucherID,
    Values.empty, false, false⟩

/-- Request construction of `Client.GetApplicationInfo`
(src/client.go lines 138-140). -/
def getApplicationInfoBuild : Except String Req :=
  .ok ⟨"GET", "/v1/info", Values.empty, false, true⟩

/-! ## Exposed operations run against a client

Each wrapper pairs an operation's request construction with the
client-threading round trip, exactly as the Go method body does. -/

/-- Model of `Client.ListSites` on a client. -/
def listSitesOp (c : Client) (params : Option ListSitesParams) (resp : HttpResponse) :
    Client × Except String DoResult :=
  runOp c (listSites params) resp

/-- Model of `Client.GetSite` on a client. -/
def getSiteOp (c : Client) (siteID : String) (resp : HttpResponse) :
    Client × Except String DoResult :=
  runOp c (getSiteBuild siteID) resp

/-- Model of `Client.ListDevices` on a client. -/
def listDevicesOp (c : Client) (siteID : String) (params : Option ListDevicesParams)
    (resp : HttpResponse) : Client × Except String DoResult :=
  runOp c (listDevices siteID params) resp

/-- Model of `Client.GetDevice` on a client. -/
def getDeviceOp (c : Client) (siteID deviceID : String) (resp : HttpResponse) :
    Client × Except String DoResult :=
  runOp c (getDeviceBuild siteID deviceID) resp

/-- Model of `Client.ExecuteDeviceAction` on a client. -/
def executeDeviceActionOp (c : Client) (siteID deviceID : String) (action : Option DeviceAction)
    (resp : HttpResponse) : Client × Except String DoResult :=
  runOp c (executeDeviceAction siteID deviceID action) resp

/-- Model of `Client.ExecutePortAction` on a client. -/
def executePortActionOp (c : Client) (siteID deviceID : String) (action : Option DevicePortAction)
    (resp : HttpResponse) : Client × Except String DoResult :=
  runOp c (executePortAction siteID deviceID action) resp

/-- Model of `Client.GetDeviceStatistics` on a client. -/
def getDeviceStatisticsOp (c : Client) (siteID deviceID : String) (resp : HttpResponse) :
    Client × Except String DoResult :=
  runOp c (getDeviceStatisticsBuild siteID deviceID) resp

/-- Model of `Client.ListNetworkClients` on a client. -/
def listNetworkClientsOp (c : Client) (siteID : String)
    (params : Option ListNetworkClientsParams) (resp : HttpResponse) :
    Client × Except String DoResult :=
  runOp c (listNetworkClients siteID params) resp

/-- Model of `Client.GetNetworkClient` on a client. -/
def getNetworkClientOp (c : Client) (siteID clientID : String) (resp : HttpResponse) :
    Client × Except String DoResult :=
  runOp c (getNetworkClientBuild siteID clientID) resp

/-- Model of `Client.BlockNetworkClient` on a client. -/
def blockNetworkClientOp (c : Client) (siteID clientID : String) (resp : HttpResponse) :
    Client × Except String DoResult :=
  runOp c (blockNetworkClient siteID clientID) resp

/-- Model of `Client.UnblockNetworkClient` on a client. -/
def unblockNetworkClientOp (c : Client) (siteID clientID : String) (resp : HttpResponse) :
    Client × Except String DoResult :=
  runOp c (unblockNetworkClient siteID clientID) resp

/-- Model of `Client.ListHotspotVouchers` on a client. -/
def listHotspotVouchersOp (c : Client) (siteID : String)
    (params : Option ListHotspotVouchersParams) (resp : HttpResponse) :
    Client × Except String DoResult :=
  runOp c (listHotspotVouchers siteID params) resp

/-- Model of `Client.CreateHotspotVoucher` on a client. -/
def createHotspotVoucherOp (c : Client) (siteID : String)
    (request : Option CreateHotspotVoucherRequest) (resp : HttpResponse) :
    Client × Except String DoResult :=
  runOp c (createHotspotVoucherBuild siteID request) resp

/-- Model of `Client.GetHotspotVoucher` on a client. -/
def getHotspotVoucherOp (c : Client) (siteID voucherID : String) (resp : HttpResponse) :
    Client × Except String DoResult :=
  runOp c (getHotspotVoucherBuild siteID voucherID) resp

/-- Model of `Client.DeleteHotspotVoucher` on a client. -/
def deleteHotspotVoucherOp (c : Client) (siteID voucherID : String) (resp : HttpResponse) :
    Client × Except String DoResult :=
  runOp c (deleteHotspotVoucherBuild siteID voucherID) resp

/-- Model of `Client.GenerateHotspotVouchers` on a client. -/
def generateHotspotVouchersOp (c : Client) (siteID : String)
    (request : Option GenerateHotspotVouchersRequest) (resp : HttpResponse) :
    Client × Except String DoResult :=
  runOp c (generateHotspotVouchers siteID request) resp

/-- Model of `Client.GetVoucherDetails` on a client. -/
def getVoucherDetailsOp (c : Client) (siteID voucherID : String) (resp : HttpResponse) :
    Client × Except String DoResult :=
  runOp c (getVoucherDetailsBuild siteID voucherID) resp

/-- Model of `Client.GetApplicationInfo` on a client. -/
def getApplicationInfoOp (c : Client) (resp : HttpResponse) :
    Client × Except String DoResult :=
  runOp c getApplicationInfoBuild resp

/-! ## Operation results for the action operations -/

/-- Model of `(*Error).Error()` (src/client.go lines 226-229). -/
def goErrorString (e : GoError) : String :=
  e.StatusName ++ ": " ++ e.Message ++ " (status: " ++ toString e.Status ++
    ", request: " ++ e.RequestPath ++ ", id: " ++ e.RequestID ++ ")"

/-- Final result of an action operation: a validation error is returned
as-is; otherwise `Client.do` runs against the response and any error it
yields is wrapped with the operation's `failed to ...` message. Success is
`Except.ok ()` — the operations decode no response body. -/
def actionOpResult (wrap : String) (build : Except String Req) (resp : HttpResponse) :
    Except String Unit :=
  match build with
  | .error e => .error e
  | .ok _ =>
    match doRun resp with
    | .success _ => .ok ()
    | .apiError e => .error (wrap ++ goErrorString e)
    | .rawError m => .error (wrap ++ m)

/-- Model of `Client.ExecuteDeviceAction` end to end (src/unnamed/part_001
lines 181-193). -/
def executeDeviceActionResult (siteID deviceID : String) (action : Option DeviceAction)
    (resp : HttpResponse) : Except String Unit :=
  actionOpResult "failed to execute device action: "
    (executeDeviceAction siteID deviceID action) resp

/-- Model of `Client.ExecutePortAction` end to end (src/unnamed/part_001
lines 166-178). -/
def executePortActionResult (siteID deviceID : String) (action : Option DevicePortAction)
    (resp : HttpResponse) : Except String Unit :=
  actionOpResult "failed to execute port action: "
    (executePortAction siteID deviceID action) resp

/-- Model of `Client.BlockNetworkClient` end to end (src/test_helpers.go clients
module lines 342-356). -/
def blockNetworkClientResult (siteID clientID : String) (resp : HttpResponse) :
    Except String Unit :=
  actionOpResult "failed to block network client: "
    (blockNetworkClient siteID clientID) resp

/-- Model of `Client.UnblockNetworkClient` end to end (src/test_helpers.go clients
module lines 359-373). -/
def unblockNetworkClientResult (siteID clientID : String) (resp : HttpResponse) :
    Except String Unit :=
  actionOpResult "failed to unblock network client: "
    (unblockNetworkClient siteID clientID) resp

/-- Coerce an explicit association list into `Values` (used to state
concrete query contents). -/
def Values.ofList (l : List (String × String)) : Values := l

/-- The zero `Device` value, as produced by `var d Device`. -/
def deviceZero : Device :=
  ⟨"", "", "", "", [], "", "", "", "", false, false, 0, 0, false, "", "", ""⟩

/-! ## Helper lemmas -/

/-- Model of `runOp` hands back the client it was given, whatever the build and
response. -/
theorem runOp_fst (c : Client) (b : Except String Req) (resp : HttpResponse) :
    (runOp c b resp).1 = c := by
  cases b <;> rfl

/-- The error branch of `Client.do` yields a structured or raw error,
never a success. -/
theorem doErrorBranch_not_success (status : Nat) (body : String) :
    (∃ e, doErrorBranch status body = .apiError e)
    ∨ (∃ m, doErrorBranch status body = .rawError m) := by
  unfold doErrorBranch
  cases decodeGoError body <;> simp

/-! ## Claim theorems -/

/-- C2: `GenerateHotspotVouchers` reports "request cannot be nil" for a
nil request without examining fields; otherwise validation runs in the
fixed source order (name required, count in [1,10000], timeLimitMinutes in
[1,1000000], authorizedGuestLimit non-negative, dataUsageLimitMBytes in
[1,1046576] only if nonzero, rx/tx rate limits in [2,100000] only if
nonzero) and the error of the first violated rule is returned; only when
every rule passes is the POST request built, so no HTTP request is issued
on a validation failure. -/
theorem claim_C2_generate_validation_order (siteID : String) :
    generateHotspotVouchers siteID none = .error "request cannot be nil"
    ∧ ∀ r : GenerateHotspotVouchersRequest,
      (r.Name = "" →
        generateHotspotVouchers siteID (some r) = .error "name is required")
      ∧ (r.Name ≠ "" → (r.Count < 1 ∨ r.Count > 10000) →
        generateHotspotVouchers siteID (some r) =
          .error "count must be between 1 and 10000")
      ∧ (r.Name ≠ "" → 1 ≤ r.Count → r.Count ≤ 10000 →
        (r.TimeLimitMinutes < 1 ∨ r.TimeLimitMinutes > 1000000) →
        generateHotspotVouchers siteID (some r) =
          .error "timeLimitMinutes must be between 1 and 1000000")
      ∧ (r.Name ≠ "" → 1 ≤ r.Count → r.Count ≤ 10000 →
        1 ≤ r.TimeLimitMinutes → r.TimeLimitMinutes ≤ 1000000 →
        r.AuthorizeGuestLimit < 0 →
        generateHotspotVouchers siteID (some r) =
          .error "authorizedGuestLimit must be greater than 0")
      ∧ (r.Name ≠ "" → 1 ≤ r.Count → r.Count ≤ 10000 →
        1 ≤ r.TimeLimitMinutes → r.TimeLimitMinutes ≤ 1000000 →
        0 ≤ r.AuthorizeGuestLimit →
        r.DataUsageLimitMB ≠ 0 → (r.DataUsageLimitMB < 1 ∨ r.DataUsageLimitMB > 1046576) →
        generateHotspotVouchers siteID (some r) =
          .error "dataUsageLimitMBytes must be between 1 and 1046576")
      ∧ (r.Name ≠ "" → 1 ≤ r.Count → r.Count ≤ 10000 →
        1 ≤ r.TimeLimitMinutes → r.TimeLimitMinutes ≤ 1000000 →
        0 ≤ r.AuthorizeGuestLimit →
        (r.DataUsageLimitMB = 0 ∨ (1 ≤ r.DataUsageLimitMB ∧ r.DataUsageLimitMB ≤ 1046576)) →
        r.RxRateLimitKbps ≠ 0 → (r.RxRateLimitKbps < 2 ∨ r.RxRateLimitKbps > 100000) →
        generateHotspotVouchers siteID (some r) =
          .error "rxRateLimitKbps must be between 2 and 100000")
      ∧ (r.Name ≠ "" → 1 ≤ r.Count → r.Count ≤ 10000 →
        1 ≤ r.TimeLimitMinutes → r.TimeLimitMinutes ≤ 1000000 →
        0 ≤ r.AuthorizeGuestLimit →
        (r.DataUsageLimitMB = 0 ∨ (1 ≤ r.DataUsageLimitMB ∧ r.DataUsageLimitMB ≤ 1046576)) →
        (r.RxRateLimitKbps = 0 ∨ (2 ≤ r.RxRateLimitKbps ∧ r.RxRateLimitKbps ≤ 100000)) →
        r.TxRateLimitKbps ≠ 0 → (r.TxRateLimitKbps < 2 ∨ r.TxRateLimitKbps > 100000) →
        generateHotspotVouchers siteID (some r) =
          .error "txRateLimitKbps must be between 2 and 100000")
      ∧ (r.Name ≠ "" → 1 ≤ r.Count → r.Count ≤ 10000 →
        1 ≤ r.TimeLimitMinutes → r.TimeLimitMinutes ≤ 1000000 →
        0 ≤ r.AuthorizeGuestLimit →
        (r.DataUsageLimitMB = 0 ∨ (1 ≤ r.DataUsageLimitMB ∧ r.DataUsageLimitMB ≤ 1046576)) →
        (r.RxRateLimitKbps = 0 ∨ (2 ≤ r.RxRateLimitKbps ∧ r.RxRateLimitKbps ≤ 100000)) →
        (r.TxRateLimitKbps = 0 ∨ (2 ≤ r.TxRateLimitKbps ∧ r.TxRateLimitKbps ≤ 100000)) →
        generateHotspotVouchers siteID (some r) =
          .ok ⟨"POST", "/api/v1/sites/" ++ siteID ++ "/hotspot/vouchers/create",
            Values.empty, true, true⟩) := by
  refine ⟨rfl, fun r => ⟨?_, ?_, ?_, ?_, ?_, ?_, ?_, ?_⟩⟩
  · intro hname
    simp [generateHotspotVouchers, hname]
  · intro hname hcount
    simp [generateHotspotVouchers, hname, hcount]
  · intro hname hc1 hc2 htime
    have hcount : ¬(r.Count < 1 ∨ r.Count > 10000) := by omega
    simp [generateHotspotVouchers, hname, hcount, htime]
  · intro hname hc1 hc2 ht1 ht2 hguest
    have hcount : ¬(r.Count < 1 ∨ r.Count > 10000) := by omega
    have htime : ¬(r.TimeLimitMinutes < 1 ∨ r.TimeLimitMinutes > 1000000) := by omega
    simp [generateHotspotVouchers, hname, hcount, htime, hguest]
  · intro hname hc1 hc2 ht1 ht2 hguest hd1 hd2
    have hcount : ¬(r.Count < 1 ∨ r.Count > 10000) := by omega
    have htime : ¬(r.TimeLimitMinutes < 1 ∨ r.TimeLimitMinutes > 1000000) := by omega
    have hguest' : ¬(r.AuthorizeGuestLimit < 0) := by omega
    have hdata : r.DataUsageLimitMB ≠ 0 ∧ (r.DataUsageLimitMB < 1 ∨ r.DataUsageLimitMB > 1046576) :=
      ⟨hd1, hd2⟩
    simp [generateHotspotVouchers, hname, hcount, htime, hguest', hdata]
  · intro hname hc1 hc2 ht1 ht2 hguest hdata hr1 hr2
    have hcount : ¬(r.Count < 1 ∨ r.Count > 10000) := by omega
    have htime : ¬(r.TimeLimitMinutes < 1 ∨ r.TimeLimitMinutes > 1000000) := by omega
    have hguest' : ¬(r.AuthorizeGuestLimit < 0) := by omega
    have hdata' : ¬(r.DataUsageLimitMB ≠ 0 ∧ (r.DataUsageLimitMB < 1 ∨ r.DataUsageLimitMB > 1046576)) := by
      omega
    have hrx : r.RxRateLimitKbps ≠ 0 ∧ (r.RxRateLimitKbps < 2 ∨ r.RxRateLimitKbps > 100000) :=
      ⟨hr1, hr2⟩
    simp [generateHotspotVouchers, hname, hcount, htime, hguest', hdata', hrx]
  · intro hname hc1 hc2 ht1 ht2 hguest hdata hrx ht1' ht2'
    have hcount : ¬(r.Count < 1 ∨ r.Count > 10000) := by omega
    have htime : ¬(r.TimeLimitMinutes < 1 ∨ r.TimeLimitMinutes > 1000000) := by omega
    have hguest' : ¬(r.AuthorizeGuestLimit < 0) := by omega
    have hdata' : ¬(r.DataUsageLimitMB ≠ 0 ∧ (r.DataUsageLimitMB < 1 ∨ r.DataUsageLimitMB > 1046576)) := by
      omega
    have hrx' : ¬(r.RxRateLimitKbps ≠ 0 ∧ (r.RxRateLimitKbps < 2 ∨ r.RxRateLimitKbps > 100000)) := by
      omega
    have htx : r.TxRateLimitKbps ≠ 0 ∧ (r.TxRateLimitKbps < 2 ∨ r.TxRateLimitKbps > 100000) :=
      ⟨ht1', ht2'⟩
    simp [generateHotspotVouchers, hname, hcount, htime, hguest', hdata', hrx', htx]
  · intro hname hc1 hc2 ht1 ht2 hguest hdata hrx htx
    have hcount : ¬(r.Count < 1 ∨ r.Count > 10000) := by omega
    have htime : ¬(r.TimeLimitMinutes < 1 ∨ r.TimeLimitMinutes > 1000000) := by omega
    have hguest' : ¬(r.AuthorizeGuestLimit < 0) := by omega
    have hdata' : ¬(r.DataUsageLimitMB ≠ 0 ∧ (r.DataUsageLimitMB < 1 ∨ r.DataUsageLimitMB > 1046576)) := by
      omega
    have hrx' : ¬(r.RxRateLimitKbps ≠ 0 ∧ (r.RxRateLimitKbps < 2 ∨ r.RxRateLimitKbps > 100000)) := by
      omega
    have htx' : ¬(r.TxRateLimitKbps ≠ 0 ∧ (r.TxRateLimitKbps < 2 ∨ r.TxRateLimitKbps > 100000)) := by
      omega
    simp [generateHotspotVouchers, hname, hcount, htime, hguest', hdata', hrx', htx']

/-- C2 witness: the nil request and the claim's example
`{Count: 0, Name: "", TimeLimitMinutes: 0}`, which reports the
name-required error although the count rule is violated too. -/
theorem claim_C2_witness :
    generateHotspotVouchers "default" none = .error "request cannot be nil"
    ∧ generateHotspotVouchers "default" (some ⟨0, "", 0, 0, 0, 0, 0⟩) =
      .error "name is required" :=
  ⟨(claim_C2_generate_validation_order "default").1,
    (((claim_C2_generate_validation_order "default").2) ⟨0, "", 0, 0, 0, 0, 0⟩).1 rfl⟩

/-- C3: every by-id get operation turns an empty `data` array of a 200
response into a not-found error whose message names the requested id, and
otherwise returns the first element (so exactly one element is returned
unmodified, and of several elements the first is used). -/
theorem claim_C3_get_by_id_unwrap (id : String) :
    (getSiteData id [] = .error ("site not found: " ++ id))
    ∧ (∀ (x : Site) (xs : List Site), getSiteData id (x :: xs) = .ok x)
    ∧ (getDeviceData id [] = .error ("device not found: " ++ id))
    ∧ (∀ (x : Device) (xs : List Device), getDeviceData id (x :: xs) = .ok x)
    ∧ (getNetworkClientData id [] = .error ("network client not found: " ++ id))
    ∧ (∀ (x : NetworkClient) (xs : List NetworkClient),
        getNetworkClientData id (x :: xs) = .ok x)
    ∧ (getHotspotVoucherData id [] = .error ("voucher not found: " ++ id))
    ∧ (∀ (x : HotspotVoucher) (xs : List HotspotVoucher),
        getHotspotVoucherData id (x :: xs) = .ok x)
    ∧ (getVoucherDetailsData id [] = .error ("voucher not found: " ++ id))
    ∧ (∀ (x : HotspotVoucher) (xs : List HotspotVoucher),
        getVoucherDetailsData id (x :: xs) = .ok x)
    ∧ (getDeviceStatisticsData id [] = .error ("no statistics found for device: " ++ id))
    ∧ (∀ (x : DeviceStatistics) (xs : List DeviceStatistics),
        getDeviceStatisticsData id (x :: xs) = .ok x) :=
  ⟨rfl, fun _ _ => rfl, rfl, fun _ _ => rfl, rfl, fun _ _ => rfl, rfl, fun _ _ => rfl,
    rfl, fun _ _ => rfl, rfl, fun _ _ => rfl⟩

/-- C7: the action operations reject a nil action ("action cannot be
nil") and empty ids ("siteId is required" / "clientId is required")
without any HTTP round trip; when validation passes the request is a POST
with no expected response body, and the operation succeeds exactly when
`Client.do` reported no error. -/
theorem claim_C7_action_ops (siteID deviceID clientID : String) :
    (executeDeviceAction siteID deviceID none = .error "action cannot be nil")
    ∧ (executePortAction siteID deviceID none = .error "action cannot be nil")
    ∧ (∀ resp, executeDeviceActionResult siteID deviceID none resp =
        .error "action cannot be nil")
    ∧ (∀ resp, executePortActionResult siteID deviceID none resp =
        .error "action cannot be nil")
    ∧ (siteID = "" → blockNetworkClient siteID clientID = .error "siteId is required")
    ∧ (siteID ≠ "" → clientID = "" →
        blockNetworkClient siteID clientID = .error "clientId is required")
    ∧ (siteID = "" → unblockNetworkClient siteID clientID = .error "siteId is required")
    ∧ (siteID ≠ "" → clientID = "" →
        unblockNetworkClient siteID clientID = .error "clientId is required")
    ∧ (siteID = "" → ∀ resp, blockNetworkClientResult siteID clientID resp =
        .error "siteId is required")
    ∧ (siteID ≠ "" → clientID = "" → ∀ resp,
        blockNetworkClientResult siteID clientID resp = .error "clientId is required")
    ∧ (∀ a : DeviceAction, ∃ req, executeDeviceAction siteID deviceID (some a) = .ok req
        ∧ req.method = "POST" ∧ req.expectsResult = false)
    ∧ (∀ a : DevicePortAction, ∃ req, executePortAction siteID deviceID (some a) = .ok req
        ∧ req.method = "POST" ∧ req.expectsResult = false)
    ∧ (siteID ≠ "" → clientID ≠ "" → ∃ req, blockNetworkClient siteID clientID = .ok req
        ∧ req.method = "POST" ∧ req.expectsResult = false)
    ∧ (siteID ≠ "" → clientID ≠ "" → ∃ req, unblockNetworkClient siteID clientID = .ok req
        ∧ req.method = "POST" ∧ req.expectsResult = false)
    ∧ (∀ (a : DeviceAction) (resp : HttpResponse),
        executeDeviceActionResult siteID deviceID (some a) resp = .ok ()
          ↔ doRun resp = .success resp.body)
    ∧ (∀ (a : DevicePortAction) (resp : HttpResponse),
        executePortActionResult siteID deviceID (some a) resp = .ok ()
          ↔ doRun resp = .success resp.body)
    ∧ (siteID ≠ "" → clientID ≠ "" → ∀ resp : HttpResponse,
        blockNetworkClientResult siteID clientID resp = .ok ()
          ↔ doRun resp = .success resp.body)
    ∧ (siteID ≠ "" → clientID ≠ "" → ∀ resp : HttpResponse,
        unblockNetworkClientResult siteID clientID resp = .ok ()
          ↔ doRun resp = .success resp.body) := by
  have hiff : ∀ (wrap : String) (req : Req) (resp : HttpResponse),
      actionOpResult wrap (.ok req) resp = .ok () ↔ doRun resp = .success resp.body := by
    intro wrap req resp
    unfold actionOpResult doRun
    by_cases hge : resp.status ≥ 400
    · simp only [hge, if_pos, if_true]
      rcases doErrorBranch_not_success resp.status resp.body with ⟨e, he⟩ | ⟨m, hm⟩
      · rw [he]; simp
      · rw [hm]; simp
    · simp [hge]
  refine ⟨rfl, rfl, fun _ => rfl, fun _ => rfl, ?_, ?_, ?_, ?_, ?_, ?_, ?_, ?_, ?_, ?_,
    ?_, ?_, ?_, ?_⟩
  · intro h; simp [blockNetworkClient, h]
  · intro h h'; simp [blockNetworkClient, h, h']
  · intro h; simp [unblockNetworkClient, h]
  · intro h h'; simp [unblockNetworkClient, h, h']
  · intro h resp; simp [blockNetworkClientResult, actionOpResult, blockNetworkClient, h]
  · intro h h' resp; simp [blockNetworkClientResult, actionOpResult, blockNetworkClient, h, h']
  · intro a
    exact ⟨⟨"POST", "/api/v1/sites/" ++ siteID ++ "/devices/" ++ deviceID,
      Values.empty, true, false⟩, rfl, rfl, rfl⟩
  · intro a
    exact ⟨⟨"POST", "/api/v1/sites/" ++ siteID ++ "/devices/" ++ deviceID ++ "/port/" ++ a.PortID,
      Values.empty, true, false⟩, rfl, rfl, rfl⟩
  · intro h h'
    refine ⟨⟨"POST", "/v1/sites/" ++ siteID ++ "/clients/" ++ clientID ++ "/block",
      Values.empty, false, false⟩, ?_, rfl, rfl⟩
    simp [blockNetworkClient, h, h']
  · intro h h'
    refine ⟨⟨"POST", "/v1/sites/" ++ siteID ++ "/clients/" ++ clientID ++ "/unblock",
      Values.empty, false, false⟩, ?_, rfl, rfl⟩
    simp [unblockNetworkClient, h, h']
  · intro a resp
    exact hiff _ _ resp
  · intro a resp
    exact hiff _ _ resp
  · intro h h' resp
    have hb : blockNetworkClient siteID clientID =
        .ok ⟨"POST", "/v1/sites/" ++ siteID ++ "/clients/" ++ clientID ++ "/block",
          Values.empty, false, false⟩ := by
      simp [blockNetworkClient, h, h']
    unfold blockNetworkClientResult
    rw [hb]
    exact hiff _ _ resp
  · intro h h' resp
    have hb : unblockNetworkClient siteID clientID =
        .ok ⟨"POST", "/v1/sites/" ++ siteID ++ "/clients/" ++ clientID ++ "/unblock",
          Values.empty, false, false⟩ := by
      simp [unblockNetworkClient, h, h']
    unfold unblockNetworkClientResult
    rw [hb]
    exact hiff _ _ resp

/-- C7 witness: the spec's scenario — blocking a client with an empty
client id yields exactly the "clientId is required" validation error. -/
theorem claim_C7_witness :
    blockNetworkClient "default" "" = .error "clientId is required" := by
  have h := claim_C7_action_ops "default" "dev1" ""
  exact h.2.2.2.2.2.1 (by decide) rfl

/-- C8: whenever `Device.UnmarshalJSON` succeeds and the decoded feature
list is non-empty, the `Type` field equals its first entry — the decoder
itself establishes this for every input document and every receiver. -/
theorem claim_C8_device_type_from_features (d0 : Device) (j : Json) (d : Device)
    (h : unmarshalDevice d0 j = .ok d) (f : String) (fs : List String)
    (hf : d.Features = f :: fs) : d.type = f := by
  unfold unmarshalDevice at h
  cases h0 : unmarshalDeviceFields d0 j with
  | error e =>
    rw [h0] at h
    exact absurd h (by simp)
  | ok d1 =>
    rw [h0] at h
    dsimp only at h
    cases hF : d1.Features with
    | nil =>
      rw [hF] at h
      dsimp only at h
      simp only [Except.ok.injEq] at h
      subst h
      rw [hF] at hf
      exact absurd hf (by simp)
    | cons g gs =>
      rw [hF] at h
      dsimp only at h
      simp only [Except.ok.injEq] at h
      subst h
      simp only [hF, List.cons.injEq] at hf
      exact hf.1

/-- C8 witness: decoding `{"features":["uap","switch"]}` into a zero
device yields `Type = "uap"`, the first feature. -/
theorem claim_C8_witness :
    unmarshalDevice deviceZero (.jobj [("features", .jarr [.jstr "uap", .jstr "switch"])]) =
      .ok ⟨"", "", "", "uap", ["uap", "switch"], "", "", "", "", false, false, 0, 0, false,
        "", "", ""⟩
    ∧ (⟨"", "", "", "uap", ["uap", "switch"], "", "", "", "", false, false, 0, 0, false,
        "", "", ""⟩ : Device).type = "uap" :=
  ⟨rfl,
    claim_C8_device_type_from_features deviceZero
      (.jobj [("features", .jarr [.jstr "uap", .jstr "switch"])])
      ⟨"", "", "", "uap", ["uap", "switch"], "", "", "", "", false, false, 0, 0, false,
        "", "", ""⟩ rfl "uap" ["switch"] rfl⟩

/-- C9: no exposed operation mutates the client: whatever the inputs and
whatever the response, the client record (base URL, HTTP client, API key,
insecure flag, logger) handed back by the state-threaded run of every
operation is the one passed in; `Client.do` only ever writes to its local
copy of the URL. -/
theorem claim_C9_no_client_mutation (c : Client) (resp : HttpResponse)
    (urlPath siteID deviceID clientID voucherID : String)
    (sp : Option ListSitesParams) (dp : Option ListDevicesParams)
    (cp : Option ListNetworkClientsParams) (vp : Option ListHotspotVouchersParams)
    (da : Option DeviceAction) (pa : Option DevicePortAction)
    (cr : Option CreateHotspotVoucherRequest) (gr : Option GenerateHotspotVouchersRequest) :
    (doClient c urlPath resp).1 = c
    ∧ (listSitesOp c sp resp).1 = c
    ∧ (getSiteOp c siteID resp).1 = c
    ∧ (listDevicesOp c siteID dp resp).1 = c
    ∧ (getDeviceOp c siteID deviceID resp).1 = c
    ∧ (executeDeviceActionOp c siteID deviceID da resp).1 = c
    ∧ (executePortActionOp c siteID deviceID pa resp).1 = c
    ∧ (getDeviceStatisticsOp c siteID deviceID resp).1 = c
    ∧ (listNetworkClientsOp c siteID cp resp).1 = c
    ∧ (getNetworkClientOp c siteID clientID resp).1 = c
    ∧ (blockNetworkClientOp c siteID clientID resp).1 = c
    ∧ (unblockNetworkClientOp c siteID clientID resp).1 = c
    ∧ (listHotspotVouchersOp c siteID vp resp).1 = c
    ∧ (createHotspotVoucherOp c siteID cr resp).1 = c
    ∧ (getHotspotVoucherOp c siteID voucherID resp).1 = c
    ∧ (deleteHotspotVoucherOp c siteID voucherID resp).1 = c
    ∧ (generateHotspotVouchersOp c siteID gr resp).1 = c
    ∧ (getVoucherDetailsOp c siteID voucherID resp).1 = c
    ∧ (getApplicationInfoOp c resp).1 = c :=
  ⟨rfl, runOp_fst c _ resp, runOp_fst c _ resp, runOp_fst c _ resp, runOp_fst c _ resp,
    runOp_fst c _ resp, runOp_fst c _ resp, runOp_fst c _ resp, runOp_fst c _ resp,
    runOp_fst c _ resp, runOp_fst c _ resp, runOp_fst c _ resp, runOp_fst c _ resp,
    runOp_fst c _ resp, runOp_fst c _ resp, runOp_fst c _ resp, runOp_fst c _ resp,
    runOp_fst c _ resp, runOp_fst c _ resp⟩

/-- C4: in `Client.do`, a response with status at least 400 is mapped to
the structured Error value decoded from the body when that decode
succeeds, and otherwise to a fallback error embedding the numeric status
code and the raw body text verbatim; the failure is never dropped into a
success. -/
theorem claim_C4_do_error_mapping (status : Nat) (body : String) (hstatus : 400 ≤ status) :
    (∀ e : GoError, decodeGoError body = .ok e →
      doErrorBranch status body = .apiError e ∧ doRun ⟨status, body⟩ = .apiError e)
    ∧ (∀ msg : String, decodeGoError body = .error msg →
      doErrorBranch status body =
        .rawError ("API error (status " ++ toString status ++ "): " ++ body)
      ∧ doRun ⟨status, body⟩ =
        .rawError ("API error (status " ++ toString status ++ "): " ++ body))
    ∧ (∀ b : String, doRun ⟨status, body⟩ ≠ .success b) := by
  have hge : (⟨status, body⟩ : HttpResponse).status ≥ 400 := hstatus
  refine ⟨?_, ?_, ?_⟩
  · intro e he
    have h1 : doErrorBranch status body = .apiError e := by
      unfold doErrorBranch
      rw [he]
    exact ⟨h1, by unfold doRun; rw [if_pos hge]; exact h1⟩
  · intro msg hmsg
    have h1 : doErrorBranch status body =
        .rawError ("API error (status " ++ toString status ++ "): " ++ body) := by
      unfold doErrorBranch
      rw [hmsg]
    exact ⟨h1, by unfold doRun; rw [if_pos hge]; exact h1⟩
  · intro b
    unfold doRun
    rw [if_pos hge]
    rcases doErrorBranch_not_success status body with ⟨e, he⟩ | ⟨m, hm⟩
    · rw [he]; simp
    · rw [hm]; simp

/-- C4 witness: the spec's example — a 404 response whose body is
`{"statusCode":404,"statusName":"Not Found","message":"X not found"}`
yields the structured error with status 404 and message "X not found",
and a 404 with a non-JSON body yields the fallback error embedding the
status code and the body verbatim. -/
theorem claim_C4_witness :
    doErrorBranch 404
      "\x7b\"statusCode\":404,\"statusName\":\"Not Found\",\"message\":\"X not found\"\x7d" =
      .apiError ⟨404, "Not Found", "X not found", "", "", ""⟩
    ∧ doErrorBranch 404 "upstream blew up" =
      .rawError ("API error (status " ++ toString 404 ++ "): " ++ "upstream blew up") :=
  ⟨(((claim_C4_do_error_mapping 404
      "\x7b\"statusCode\":404,\"statusName\":\"Not Found\",\"message\":\"X not found\"\x7d"
      (by decide)).1) ⟨404, "Not Found", "X not found", "", "", ""⟩ rfl).1,
    (((claim_C4_do_error_mapping 404 "upstream blew up" (by decide)).2.1)
      "invalid character" rfl).1⟩

/-- C1 counterexample: `ListHotspotVouchers` performs no limit bounds
check — with `Limit = 201` it returns no validation error and places
`limit=201` in the outgoing query verbatim, so the claimed `limit > 200 ⇒
validation error` fails for this list operation. -/
theorem claim_C1_counterexample :
    listHotspotVouchers "default" (some ⟨0, 201⟩) =
      .ok ⟨"GET", "/api/v1/sites/default/hotspot/vouchers?limit=201",
        Values.ofList [("limit", "201")], false, true⟩ := by
  rfl

set_option maxHeartbeats 2000000 in
/-- C1 (amended): for `ListSites`, `ListDevices` and `ListNetworkClients`
the claimed trichotomy holds — `limit > 200` is rejected with the message
naming the 0-200 bound before any request, a limit in [1,200] is placed in
the query verbatim, and a zero limit is omitted — where the inclusion
cases assume the operation's other validations pass (non-negative offset
for `ListDevices`; non-empty site id and a valid type filter for
`ListNetworkClients`). `ListHotspotVouchers` never validates the limit:
any positive limit (even above 200) is sent verbatim, a non-positive one
is omitted, and the operation never returns a validation error. -/
theorem claim_C1_amended (siteID : String) (hsid : siteID ≠ "") :
    (∀ p : ListSitesParams,
      (p.Limit > 200 → listSites (some p) = .error "limit must be between 0 and 200")
      ∧ (1 ≤ p.Limit → p.Limit ≤ 200 →
        (listSites (some p)).map (fun r => r.query.get "limit") =
          .ok (some (toString p.Limit)))
      ∧ (p.Limit = 0 →
        (listSites (some p)).map (fun r => r.query.get "limit") = .ok none))
    ∧ (∀ p : ListDevicesParams,
      (p.Limit > 200 → listDevices siteID (some p) = .error "limit must be between 0 and 200")
      ∧ (0 ≤ p.Offset → 1 ≤ p.Limit → p.Limit ≤ 200 →
        (listDevices siteID (some p)).map (fun r => r.query.get "limit") =
          .ok (some (toString p.Limit)))
      ∧ (0 ≤ p.Offset → p.Limit = 0 →
        (listDevices siteID (some p)).map (fun r => r.query.get "limit") = .ok none))
    ∧ (∀ p : ListNetworkClientsParams,
      (p.Limit > 200 →
        listNetworkClients siteID (some p) = .error "limit must be between 0 and 200")
      ∧ ((p.type = "" ∨ p.type = "all" ∨ p.type = "wired" ∨ p.type = "wireless") →
        1 ≤ p.Limit → p.Limit ≤ 200 →
        (listNetworkClients siteID (some p)).map (fun r => r.query.get "limit") =
          .ok (some (toString p.Limit)))
      ∧ ((p.type = "" ∨ p.type = "all" ∨ p.type = "wired" ∨ p.type = "wireless") →
        p.Limit = 0 →
        (listNetworkClients siteID (some p)).map (fun r => r.query.get "limit") = .ok none))
    ∧ (∀ p : ListHotspotVouchersParams,
      (1 ≤ p.Limit →
        (listHotspotVouchers siteID (some p)).map (fun r => r.query.get "limit") =
          .ok (some (toString p.Limit)))
      ∧ (p.Limit ≤ 0 →
        (listHotspotVouchers siteID (some p)).map (fun r => r.query.get "limit") = .ok none)
      ∧ (∀ msg, listHotspotVouchers siteID (some p) ≠ .error msg)) := by
  refine ⟨fun p => ⟨?_, ?_, ?_⟩, fun p => ⟨?_, ?_, ?_⟩, fun p => ⟨?_, ?_, ?_⟩,
    fun p => ⟨?_, ?_, ?_⟩⟩
  · intro h
    simp only [listSites]
    split_ifs <;> first | rfl | omega
  · intro h1 h2
    simp only [listSites]
    split_ifs <;>
      first
        | omega
        | simp_all [Values.empty, Values.set, Values.get, List.find?, Except.map]
  · intro h
    simp only [listSites]
    split_ifs <;>
      first
        | omega
        | simp_all [Values.empty, Values.set, Values.get, List.find?, Except.map]
  · intro h
    simp only [listDevices]
    split_ifs <;> first | rfl | omega
  · intro h0 h1 h2
    simp only [listDevices]
    split_ifs <;>
      first
        | omega
        | simp_all [Values.empty, Values.set, Values.get, List.find?, Except.map]
  · intro h0 h
    simp only [listDevices]
    split_ifs <;>
      first
        | omega
        | simp_all [Values.empty, Values.set, Values.get, List.find?, Except.map]
  · intro h
    simp only [listNetworkClients]
    split_ifs <;> first | rfl | omega | simp_all
  · intro ht h1 h2
    simp only [listNetworkClients]
    split_ifs <;>
      first
        | omega
        | (rcases ht with ht | ht | ht | ht <;>
            simp_all [Values.empty, Values.set, Values.get, List.find?, Except.map])
  · intro ht h
    simp only [listNetworkClients]
    split_ifs <;>
      first
        | omega
        | (rcases ht with ht | ht | ht | ht <;>
            simp_all [Values.empty, Values.set, Values.get, List.find?, Except.map])
  · intro h1
    simp only [listHotspotVouchers]
    split_ifs <;>
      first
        | omega
        | simp_all [Values.empty, Values.set, Values.get, List.find?, Except.map]
  · intro h1
    simp only [listHotspotVouchers]
    split_ifs <;>
      first
        | omega
        | simp_all [Values.empty, Values.set, Values.get, List.find?, Except.map]
  · intro msg
    simp only [listHotspotVouchers]
    split_ifs <;> simp

/-- C1 witness for the amended statement: a limit of 100 is sent verbatim
by `ListSites`, `ListSites` rejects 201, and `ListHotspotVouchers`
forwards even 300 without complaint. -/
theorem claim_C1_witness :
    listSites (some ⟨0, 201⟩) = .error "limit must be between 0 and 200"
    ∧ (listSites (some ⟨0, 100⟩)).map (fun r => r.query.get "limit") =
      .ok (some (toString (100 : Int)))
    ∧ (listHotspotVouchers "default" (some ⟨0, 300⟩)).map (fun r => r.query.get "limit") =
      .ok (some (toString (300 : Int))) :=
  ⟨(((claim_C1_amended "default" (by decide)).1 ⟨0, 201⟩).1) (by decide),
    (((claim_C1_amended "default" (by decide)).1 ⟨0, 100⟩).2.1) (by decide) (by decide),
    (((claim_C1_amended "default" (by decide)).2.2.2 ⟨0, 300⟩).1) (by decide)⟩

/-- C6 counterexample: `ListSites` does not reject a negative offset — it
silently omits it and issues the request, so the claimed `offset < 0 ⇒
validation error` fails for this list operation. -/
theorem claim_C6_counterexample :
    listSites (some ⟨-1, 0⟩) = .ok ⟨"GET", "/v1/sites", Values.empty, false, true⟩ := by
  rfl

set_option maxHeartbeats 2000000 in
/-- C6 (amended): only `ListDevices` validates the offset — a negative
offset is rejected with "offset must be non-negative" (provided the limit
bound, checked first, passes). `ListSites`, `ListNetworkClients` (with its
other validations passing) and `ListHotspotVouchers` never reject a
negative offset: they omit the offset key from the query and issue the
request. -/
theorem claim_C6_amended (siteID : String) (hsid : siteID ≠ "") :
    (∀ p : ListDevicesParams, p.Offset < 0 → p.Limit ≤ 200 →
      listDevices siteID (some p) = .error "offset must be non-negative")
    ∧ (∀ p : ListSitesParams, p.Offset < 0 → p.Limit ≤ 200 →
      (listSites (some p)).map (fun r => r.query.get "offset") = .ok none)
    ∧ (∀ p : ListNetworkClientsParams, p.Offset < 0 → p.Limit ≤ 200 →
      (p.type = "" ∨ p.type = "all" ∨ p.type = "wired" ∨ p.type = "wireless") →
      (listNetworkClients siteID (some p)).map (fun r => r.query.get "offset") = .ok none)
    ∧ (∀ p : ListHotspotVouchersParams, p.Offset < 0 →
      (listHotspotVouchers siteID (some p)).map (fun r => r.query.get "offset") = .ok none) := by
  refine ⟨fun p h0 hl => ?_, fun p h0 hl => ?_, fun p h0 hl ht => ?_, fun p h0 => ?_⟩
  · simp only [listDevices]
    split_ifs <;> first | rfl | omega
  · simp only [listSites]
    split_ifs <;>
      first
        | omega
        | simp_all [Values.empty, Values.set, Values.get, List.find?, Except.map]
  · simp only [listNetworkClients]
    split_ifs <;>
      first
        | omega
        | (rcases ht with ht | ht | ht | ht <;>
            simp_all [Values.empty, Values.set, Values.get, List.find?, Except.map])
  · simp only [listHotspotVouchers]
    split_ifs <;>
      first
        | omega
        | simp_all [Values.empty, Values.set, Values.get, List.find?, Except.map]

/-- C6 witness for the amended statement: `ListDevices` rejects offset -1,
while `ListHotspotVouchers` with offset -1 issues a request whose query
has no offset key. -/
theorem claim_C6_witness :
    listDevices "default" (some ⟨-1, 0, ""⟩) = .error "offset must be non-negative"
    ∧ (listHotspotVouchers "default" (some ⟨-1, 0⟩)).map (fun r => r.query.get "offset") =
      .ok none :=
  ⟨((claim_C6_amended "default" (by decide)).1 ⟨-1, 0, ""⟩) (by decide) (by decide),
    ((claim_C6_amended "default" (by decide)).2.2.2 ⟨-1, 0⟩) (by decide)⟩

/-! ## Path-normalization lemmas (towards claim C5) -/

/-- Splitting after a leading separator yields a leading empty segment. -/
theorem rawSegs_cons_sep (l : List Char) : rawSegsL ('/' :: l) = [] :: rawSegsL l := by
  show List.splitOnP (fun c => c == '/') ('/' :: l) = [] :: List.splitOnP (fun c => c == '/') l
  rw [List.splitOnP_cons]
  simp

/-- Raw segments of the prefix glued (with a separator) onto a tail. -/
theorem rawSegs_pfx_append (l : List Char) :
    rawSegsL (pfxChars ++ '/' :: l) =
      [] :: "proxy".data :: "network".data :: "integration".data :: rawSegsL l := by
  show List.splitOnP (fun c => c == '/')
      ('/' :: ("proxy".data ++ '/' :: ("network".data ++ '/' :: ("integration".data ++ '/' :: l))))
    = [] :: "proxy".data :: "network".data :: "integration".data
        :: List.splitOnP (fun c => c == '/') l
  rw [List.splitOnP_cons]
  rw [List.splitOnP_first _ "proxy".data (by decide) '/' (by decide)]
  rw [List.splitOnP_first _ "network".data (by decide) '/' (by decide)]
  rw [List.splitOnP_first _ "integration".data (by decide) '/' (by decide)]
  simp

/-- With no `.` or `..` segments, the `path.Clean` stack pass keeps
exactly the non-empty segments in order. -/
theorem cleanSegsAux_no_dots (rooted : Bool) (segs : List (List Char))
    (hseg : ∀ s ∈ segs, s ≠ ['.'] ∧ s ≠ ['.', '.']) :
    ∀ acc, cleanSegsAux rooted acc segs =
      acc.reverse ++ segs.filter (fun s => s ≠ []) := by
  induction segs with
  | nil => intro acc; simp [cleanSegsAux]
  | cons s rest ih =>
    intro acc
    have hs := hseg s (by simp)
    have hrest : ∀ s ∈ rest, s ≠ ['.'] ∧ s ≠ ['.', '.'] :=
      fun x hx => hseg x (by simp [hx])
    by_cases hempty : s = []
    · subst hempty
      simp only [cleanSegsAux, List.filter_cons]
      simp [ih hrest]
    · simp only [cleanSegsAux, List.filter_cons]
      rw [if_neg (by simp [hempty, hs.1]), if_neg hs.2]
      rw [ih hrest (s :: acc)]
      simp [hempty]

/-- Every piece produced by splitting on `/` is slash-free. -/
theorem splitOn_slash_free (l : List Char) :
    ∀ s ∈ List.splitOnP (fun c => c == '/') l, '/' ∉ s := by
  induction l with
  | nil =>
    intro s hs
    simp at hs
    simp [hs]
  | cons x xs ih =>
    intro s hs
    rw [List.splitOnP_cons] at hs
    by_cases hx : (x == '/') = true
    · rw [if_pos hx] at hs
      rcases List.mem_cons.mp hs with h | h
      · simp [h]
      · exact ih s h
    · rw [if_neg hx] at hs
      cases hsplit : List.splitOnP (fun c => c == '/') xs with
      | nil => exact absurd hsplit (List.splitOnP_ne_nil _ xs)
      | cons hd tl =>
        rw [hsplit] at hs
        simp only [List.modifyHead] at hs
        rcases List.mem_cons.mp hs with h | h
        · subst h
          intro hc
          rcases List.mem_cons.mp hc with h' | h'
          · subst h'
            simp at hx
          · exact ih hd (by rw [hsplit]; exact List.mem_cons_self _ _) h'
        · exact ih s (by rw [hsplit]; exact List.mem_cons_of_mem _ h)

/-- C5 counterexample: the caller's base path
`/proxy/network/integration/proxy/network/integration` — which already
contains the prefix — normalizes to itself, and the normalized base path
contains the segment sequence `proxy/network/integration` twice, not
exactly once. -/
theorem claim_C5_counterexample :
    normalizeBasePath "/proxy/network/integration/proxy/network/integration" =
      "/proxy/network/integration/proxy/network/integration"
    ∧ pfxSeqCount
        (normalizeBasePath "/proxy/network/integration/proxy/network/integration") = 2 := by
  constructor
  · rfl
  · rfl

/-- A list is a prefix of itself followed by anything. -/
theorem isPre_self_append (a b : List Char) : a.isPrefixOf (a ++ b) = true := by
  induction a with
  | nil => cases b <;> rfl
  | cons x xs ih => simp [List.isPrefixOf, ih]

/-- A segment-list is a prefix of itself followed by anything
(`List (List Char)` instance of the same fact). -/
theorem isPre_self_append_segs (a b : List (List Char)) : a.isPrefixOf (a ++ b) = true := by
  induction a with
  | nil => cases b <;> rfl
  | cons x xs ih => simp [List.isPrefixOf, ih]

/-- Unfolding step of the occurrence counter. -/
theorem seqCount_cons (pat : List (List Char)) (s : List Char) (rest : List (List Char)) :
    seqCount pat (s :: rest) =
      (if pat.isPrefixOf (s :: rest) then 1 else 0) + seqCount pat rest := rfl

/-- Occurrences of the prefix sequence in `prefix ++ S`: one at the
front, none straddling the boundary (the sequence's three segments are
pairwise distinct), plus those inside `S`. -/
theorem seqCount_pfx_append (S : List (List Char)) :
    seqCount pfxSegs (pfxSegs ++ S) = 1 + seqCount pfxSegs S := by
  show seqCount pfxSegs ("proxy".data :: "network".data :: "integration".data :: S) = _
  rw [seqCount_cons, seqCount_cons, seqCount_cons]
  have h0 : pfxSegs.isPrefixOf ("proxy".data :: "network".data :: "integration".data :: S) =
      true := isPre_self_append_segs pfxSegs S
  have h1 : pfxSegs.isPrefixOf ("network".data :: "integration".data :: S) = false := rfl
  have h2 : pfxSegs.isPrefixOf ("integration".data :: S) = false := rfl
  simp [h0, h1, h2]

/-- Peeling one segment off an intercalation. -/
theorem intercalate_cons_ne_nil (a : List Char) (S : List (List Char)) (hS : S ≠ []) :
    List.intercalate ['/'] (a :: S) = a ++ '/' :: List.intercalate ['/'] S := by
  cases S with
  | nil => exact absurd rfl hS
  | cons b T => simp [List.intercalate]

/-- Splitting on `/` undoes intercalating slash-free segments. -/
theorem rawSegs_intercalate (S : List (List Char)) (hS : S ≠ [])
    (hslash : ∀ s ∈ S, '/' ∉ s) :
    rawSegsL (List.intercalate ['/'] S) = S := by
  show (List.intercalate ['/'] S).splitOn '/' = S
  exact List.splitOn_intercalate S '/' hslash hS

/-- Model of `strings.TrimPrefix` drops an actual prefix. -/
theorem trimPrefL_append (a b : List Char) : trimPrefL (a ++ b) a = b := by
  unfold trimPrefL
  rw [if_pos (isPre_self_append a b)]
  exact List.drop_left a b

/-- The slash-less prefix never matches a path that starts with `/`. -/
theorem trimPrefL_rel_slash (x : List Char) : trimPrefL ('/' :: x) pfxRelChars = '/' :: x := rfl

/-- Model of `path.Clean` on a rooted path: root marker plus the cleaned stack. -/
theorem cleanL_rooted (x : List Char) :
    cleanL ('/' :: x) =
      '/' :: List.intercalate ['/'] (cleanSegsAux true [] (rawSegsL ('/' :: x))) := by
  unfold cleanL
  rw [if_neg (by simp)]
  rfl

/-- Normal form of `path.Join(prefix, t)` for a non-empty tail without
dot segments: the prefix segments followed by the tail's non-empty
segments. -/
theorem joinL_pfx_form (t : List Char) (ht : t ≠ [])
    (hdots : ∀ s ∈ rawSegsL t, s ≠ ['.'] ∧ s ≠ ['.', '.']) :
    joinL pfxChars t = '/' :: List.intercalate ['/'] (pfxSegs ++ segsOf t) := by
  have hstep : joinL pfxChars t = cleanL (pfxChars ++ '/' :: t) := by
    unfold joinL
    rw [if_neg (by simp [ht]), if_neg (by decide), if_neg ht]
  rw [hstep]
  have hall : ∀ s ∈ ([] :: "proxy".data :: "network".data :: "integration".data
      :: rawSegsL t), s ≠ ['.'] ∧ s ≠ ['.', '.'] := by
    intro s hs
    rcases List.mem_cons.mp hs with h | hs
    · subst h; exact ⟨by decide, by decide⟩
    rcases List.mem_cons.mp hs with h | hs
    · subst h; exact ⟨by decide, by decide⟩
    rcases List.mem_cons.mp hs with h | hs
    · subst h; exact ⟨by decide, by decide⟩
    rcases List.mem_cons.mp hs with h | hs
    · subst h; exact ⟨by decide, by decide⟩
    exact hdots s hs
  have hstack : cleanSegsAux true [] (rawSegsL (pfxChars ++ '/' :: t)) =
      pfxSegs ++ segsOf t := by
    rw [rawSegs_pfx_append t]
    rw [cleanSegsAux_no_dots true _ hall []]
    simp only [List.reverse_nil, List.nil_append, List.filter_cons]
    rw [if_neg (by decide), if_pos (by decide), if_pos (by decide), if_pos (by decide)]
    rfl
  change cleanL ('/' :: ("proxy/network/integration".data ++ '/' :: t)) = _
  rw [cleanL_rooted]
  change '/' :: List.intercalate ['/']
      (cleanSegsAux true [] (rawSegsL (pfxChars ++ '/' :: t))) = _
  rw [hstack]

/-- C5 (amended): the fixed prefix appears exactly once in the normalized
base path, and normalization is idempotent, for every base path whose
trimmed remainder (the path after the single leading prefix occurrence
that `NewClient` strips) has no `.` or `..` segments and does not itself
contain the segment sequence `proxy/network/integration`. The
counterexample shows the unqualified claim fails when the remainder
contains the sequence again. -/
theorem claim_C5_amended (p : String)
    (hdots : ∀ s ∈ rawSegsL (trim2L p.data), s ≠ ['.'] ∧ s ≠ ['.', '.'])
    (hnoseq : seqCount pfxSegs (segsOf (trim2L p.data)) = 0) :
    pfxSeqCount (normalizeBasePath p) = 1
    ∧ normalizeBasePath (normalizeBasePath p) = normalizeBasePath p := by
  by_cases ht : trim2L p.data = []
  · have hnorm : normalizeBasePath p = String.mk pfxChars := by
      unfold normalizeBasePath
      rw [ht]
      rfl
    constructor
    · rw [hnorm]; rfl
    · rw [hnorm]; rfl
  · have hform : joinL pfxChars (trim2L p.data) =
        '/' :: List.intercalate ['/'] (pfxSegs ++ segsOf (trim2L p.data)) :=
      joinL_pfx_form _ ht hdots
    set S := segsOf (trim2L p.data) with hSdef
    have hSne : ∀ s ∈ S, s ≠ [] := by
      intro s hs
      have := List.of_mem_filter hs
      simpa using this
    have hSsub : ∀ s ∈ S, s ∈ rawSegsL (trim2L p.data) :=
      fun s hs => List.mem_of_mem_filter hs
    have hSslash : ∀ s ∈ S, '/' ∉ s :=
      fun s hs => splitOn_slash_free (trim2L p.data) s (hSsub s hs)
    have hSdots : ∀ s ∈ S, s ≠ ['.'] ∧ s ≠ ['.', '.'] :=
      fun s hs => hdots s (hSsub s hs)
    have hallslash : ∀ s ∈ (pfxSegs ++ S), '/' ∉ s := by
      intro s hs
      rcases List.mem_append.mp hs with h | h
      · simp only [pfxSegs, List.mem_cons] at h
        rcases h with h | h | h | h
        · subst h; decide
        · subst h; decide
        · subst h; decide
        · exact absurd h (List.not_mem_nil s)
      · exact hSslash s h
    have hnormeq : normalizeBasePath p =
        String.mk ('/' :: List.intercalate ['/'] (pfxSegs ++ S)) := by
      unfold normalizeBasePath
      rw [hform]
    constructor
    · rw [hnormeq]
      show seqCount pfxSegs (segsOf ('/' :: List.intercalate ['/'] (pfxSegs ++ S))) = 1
      unfold segsOf
      rw [rawSegs_cons_sep]
      rw [rawSegs_intercalate (pfxSegs ++ S) (by simp [pfxSegs]) hallslash]
      rw [List.filter_cons, if_neg (by decide)]
      rw [List.filter_append]
      rw [show List.filter (fun seg => decide (seg ≠ [])) pfxSegs = pfxSegs from rfl]
      rw [List.filter_eq_self.mpr (fun s hs => decide_eq_true (hSne s hs))]
      rw [seqCount_pfx_append, hnoseq]
    · rw [hnormeq]
      by_cases hS0 : S = []
      · rw [hS0]
        rfl
      · show String.mk (joinL pfxChars
            (trim2L ('/' :: List.intercalate ['/'] (pfxSegs ++ S)))) = _
        have hI : List.intercalate ['/'] (pfxSegs ++ S) =
            "proxy/network/integration".data ++ '/' :: List.intercalate ['/'] S := by
          show List.intercalate ['/']
              ("proxy".data :: "network".data :: "integration".data :: S) = _
          rw [intercalate_cons_ne_nil "proxy".data _ (by simp),
            intercalate_cons_ne_nil "network".data _ (by simp [hS0]),
            intercalate_cons_ne_nil "integration".data _ hS0]
          rfl
        have htrim : trim2L ('/' :: List.intercalate ['/'] (pfxSegs ++ S)) =
            '/' :: List.intercalate ['/'] S := by
          rw [hI]
          show trimPrefL (trimPrefL
              (pfxChars ++ '/' :: List.intercalate ['/'] S) pfxChars) pfxRelChars = _
          rw [trimPrefL_append]
          exact trimPrefL_rel_slash _
        rw [htrim]
        have hraw : rawSegsL ('/' :: List.intercalate ['/'] S) = [] :: S := by
          rw [rawSegs_cons_sep, rawSegs_intercalate S hS0 hSslash]
        have hdots2 : ∀ s ∈ rawSegsL ('/' :: List.intercalate ['/'] S),
            s ≠ ['.'] ∧ s ≠ ['.', '.'] := by
          rw [hraw]
          intro s hs
          rcases List.mem_cons.mp hs with h | h
          · subst h; exact ⟨by decide, by decide⟩
          · exact hSdots s h
        have hsegs2 : segsOf ('/' :: List.intercalate ['/'] S) = S := by
          unfold segsOf
          rw [hraw, List.filter_cons, if_neg (by decide)]
          exact List.filter_eq_self.mpr (fun s hs => decide_eq_true (hSne s hs))
        rw [joinL_pfx_form _ (by simp) hdots2, hsegs2]

/-- C5 witness for the amended statement: `/foo/bar` contains no prefix
occurrence and no dot segments; its normalization carries the prefix
exactly once and is a fixed point of normalization. -/
theorem claim_C5_witness :
    pfxSeqCount (normalizeBasePath "/foo/bar") = 1
    ∧ normalizeBasePath (normalizeBasePath "/foo/bar") = normalizeBasePath "/foo/bar" :=
  claim_C5_amended "/foo/bar" (by decide) (by decide)

end UnifiSpec
